import Mathlib

/-!
# Verification of the roadmap shuttle-planning backend

Shallow embedding, in Lean 4, of the optimization core of the repository:

* `backend/app/services/clustering_service.py` — DBSCAN-style clustering of
  employee homes into stops, plus residual refinement;
* `backend/app/services/optimization_service.py` — the OR-Tools CVRP model
  (vehicle fixed costs, hard/soft duration bounds) and fleet construction;
* `backend/app/services/osrm_service.py` — fallback distance/route results and
  nearest-road snapping;
* `backend/app/api/simulations.py` — the plan-creation retry loop, polyline
  endpoint fixing, the plan-editor preview endpoints, and employee add/remove.

Python floats are modelled as rationals (`ℚ`); the geodesic distance of the
external `geopy` library is a parameter `geo : Point → Point → ℚ` of every
definition that uses it.  Concrete instances use `geoLat`, the exact geodesic
restricted to points on a common meridian (distance proportional to the
latitude difference; the unit of `lat` is then metres along the meridian).
-/

namespace Roadmap

/-- A WGS84 point, `(lat, lng)`, with rational coordinates. -/
structure Point where
  lat : ℚ
  lng : ℚ
deriving DecidableEq, Repr

/-- The external geodesic distance (geopy's `geodesic(...).meters`),
a parameter of the embedding. -/
abbrev Geo := Point → Point → ℚ

/-- Geodesic distance restricted to points on a single meridian: proportional
to the latitude difference.  Latitudes are measured in metres along the
meridian, so the proportionality constant is 1. -/
def geoLat : Geo := fun p q => |p.lat - q.lat|

/-- Python 3 `round` to an integer: round-half-to-even (banker's rounding). -/
def pyRound (q : ℚ) : ℤ :=
  let f : ℤ := ⌊q⌋
  let r : ℚ := q - f
  if r < 1/2 then f
  else if (1:ℚ)/2 < r then f + 1
  else if f % 2 = 0 then f else f + 1

/-- Python 3 `round(x, 1)`: round to one decimal digit, half to even. -/
def pyRound1 (q : ℚ) : ℚ := (pyRound (q * 10) : ℚ) / 10

/-- Traffic scaling factor table (`TRAFFIC_SCALING_FACTORS` in
`models/schemas.py`), looked up with default `1.0` as in
`TRAFFIC_SCALING_FACTORS.get(mode, 1.0)`. -/
def trafficFactor (mode : String) : ℚ :=
  if mode = "morning" then 7/5
  else if mode = "evening" then 8/5
  else 1

/-! ## CVRP solver model (`optimization_service.py`) -/

/-- `PRIORITY_VEHICLE_COST` in `CVRPSolver.solve`. -/
def PRIORITY_VEHICLE_COST : ℤ := 100000

/-- `NON_PRIORITY_VEHICLE_COST` in `CVRPSolver.solve`. -/
def NON_PRIORITY_VEHICLE_COST : ℤ := 500000

/-- The fixed cost `CVRPSolver.solve` sets on vehicle `i`
(`routing.SetFixedCostOfVehicle`): the priority cost when
`priority_vehicle_count > 0 and vehicle_id < priority_vehicle_count`,
the non-priority cost otherwise. -/
def fixedCostOfVehicle (priorityVehicleCount i : ℕ) : ℤ :=
  if 0 < priorityVehicleCount ∧ i < priorityVehicleCount then PRIORITY_VEHICLE_COST
  else NON_PRIORITY_VEHICLE_COST

/-- `max(1, seats - buffer_seats)` in `FleetOptimizer.__init__`. -/
def effectiveCapacity (seats bufferSeats : ℤ) : ℤ := max 1 (seats - bufferSeats)

/-- The vehicle list built by `FleetOptimizer.__init__`: capacities in order,
type tags, and the priority-vehicle count handed to `CVRPSolver`. -/
structure Fleet where
  capacities : List ℤ
  types : List String
  priorityCount : ℕ
deriving Repr

/-- `FleetOptimizer.__init__`: `"large"` puts the 27-seaters first with
`priority_vehicle_count = num_27_seaters`; `"small"` puts the 16-seaters
first with `priority_vehicle_count = num_16_seaters`; anything else
(`"auto"`) puts the 27-seaters first with `priority_vehicle_count = 0`. -/
def fleetInit (vehiclePriority : String) (num16 num27 : ℕ) (bufferSeats : ℤ) : Fleet :=
  let c16 := effectiveCapacity 16 bufferSeats
  let c27 := effectiveCapacity 27 bufferSeats
  if vehiclePriority = "large" then
    { capacities := List.replicate num27 c27 ++ List.replicate num16 c16
      types := List.replicate num27 "27-seater" ++ List.replicate num16 "16-seater"
      priorityCount := num27 }
  else if vehiclePriority = "small" then
    { capacities := List.replicate num16 c16 ++ List.replicate num27 c27
      types := List.replicate num16 "16-seater" ++ List.replicate num27 "27-seater"
      priorityCount := num16 }
  else
    { capacities := List.replicate num27 c27 ++ List.replicate num16 c16
      types := List.replicate num27 "27-seater" ++ List.replicate num16 "16-seater"
      priorityCount := 0 }

/-! ## Polyline endpoint fixing (`create_simulation`, step "Build polyline
with proper start/end points") -/

/-- The `route_type` parameter of a simulation (`RouteType` in
`models/schemas.py`). -/
inductive RouteType where
  | ring
  | to_home
  | to_depot
deriving DecidableEq, Repr

/-- `if osrm_polyline[0] != depot_point: osrm_polyline.insert(0, depot_point)`. -/
def ensureDepotStart (depot : Point) (poly : List Point) : List Point :=
  if poly.head? ≠ some depot then depot :: poly else poly

/-- `if osrm_polyline[-1] != depot_point: osrm_polyline.append(depot_point)`. -/
def ensureDepotEnd (depot : Point) (poly : List Point) : List Point :=
  if poly.getLast? ≠ some depot then poly ++ [depot] else poly

/-- The polyline endpoint fixing of `create_simulation`: if the polyline is
empty it becomes `[depot]`; otherwise the depot point is prepended when the
route type requires a depot start and the first point differs, and appended
when it requires a depot end and the last point differs (for `ring`, the end
check runs on the list after the possible insertion, as in the source). -/
def ensurePolylineEndpoints (rt : RouteType) (depot : Point) (poly : List Point) : List Point :=
  if poly.isEmpty then [depot]
  else
    match rt with
    | RouteType.ring => ensureDepotEnd depot (ensureDepotStart depot poly)
    | RouteType.to_home => ensureDepotStart depot poly
    | RouteType.to_depot => ensureDepotEnd depot poly

/-! ## OSRM adapter (`osrm_service.py`) -/

/-- One leg of an OSRM route response (`legs:[{distance,duration},…]`). -/
structure Leg where
  distance : ℚ
  duration : ℚ
deriving DecidableEq, Repr

/-- Result shape of `OSRMService.get_distance_matrix`. -/
structure MatrixResult where
  distances : List (List ℚ)
  durations : List (List ℚ)
  valid : Bool
  fallback : Bool
deriving DecidableEq, Repr

/-- Result shape of `OSRMService.get_route`. -/
structure RouteResult where
  geometry : List Point
  distance : ℚ
  duration : ℚ
  legs : List Leg
  fallback : Bool
deriving DecidableEq, Repr

/-- `avg_speed_ms = 30 * 1000 / 3600` (30 km/h in m/s). -/
def avgSpeedMs : ℚ := 30 * 1000 / 3600

/-- Sum of geodesic distances over consecutive coordinate pairs
(the loop in `OSRMService._fallback_route`). -/
def pathLength (geo : Geo) : List Point → ℚ
  | [] => 0
  | [_] => 0
  | p :: q :: rest => geo p q + pathLength geo (q :: rest)

/-- `OSRMService._fallback_distance_matrix`: straight-line (geodesic)
distances with a zero diagonal, durations `(dist * 1.4) / avg_speed_ms`,
`valid = False`, `fallback = True`. -/
def fallbackDistanceMatrix (geo : Geo) (coords : List Point) : MatrixResult :=
  let n := coords.length
  let d0 : Point := ⟨0, 0⟩
  { distances := (List.range n).map fun i => (List.range n).map fun j =>
      if i = j then 0 else geo (coords.getD i d0) (coords.getD j d0)
    durations := (List.range n).map fun i => (List.range n).map fun j =>
      if i = j then 0 else geo (coords.getD i d0) (coords.getD j d0) * (14/10) / avgSpeedMs
    valid := false
    fallback := true }

/-- `OSRMService._fallback_route`: the polyline is the input coordinate list,
the reported distance is the geodesic path length times the 1.4 road factor,
the duration is that distance divided by 30 km/h, `fallback = True`
(no `legs` key in the source; modelled as the empty list). -/
def fallbackRoute (geo : Geo) (coords : List Point) : RouteResult :=
  let total := pathLength geo coords
  { geometry := coords
    distance := total * (14/10)
    duration := total * (14/10) / avgSpeedMs
    legs := []
    fallback := true }

/-- An upstream OSRM `table` response; `failure` models an HTTP error, an
exception, or a response whose `code` is not `"Ok"`. -/
inductive TableResp where
  | ok (distances durations : List (List ℚ))
  | failure

/-- `OSRMService.get_distance_matrix`: fewer than 2 coordinates short-circuits
to `[[0]]`; a good response is passed through; any failure falls back. -/
def getDistanceMatrix (geo : Geo) (coords : List Point) (resp : TableResp) : MatrixResult :=
  if coords.length < 2 then
    { distances := [[0]], durations := [[0]], valid := true, fallback := false }
  else match resp with
    | TableResp.ok d t => { distances := d, durations := t, valid := true, fallback := false }
    | TableResp.failure => fallbackDistanceMatrix geo coords

/-- An upstream OSRM `route` response; `failure` models an HTTP error, an
exception, or a response whose `code` is not `"Ok"`. -/
inductive RouteResp where
  | ok (geometry : List Point) (distance duration : ℚ) (legs : List Leg)
  | failure

/-- `OSRMService.get_route`: fewer than 2 coordinates short-circuits to an
empty result; a good response is passed through; any failure falls back. -/
def getRoute (geo : Geo) (coords : List Point) (resp : RouteResp) : RouteResult :=
  if coords.length < 2 then
    { geometry := [], distance := 0, duration := 0, legs := [], fallback := false }
  else match resp with
    | RouteResp.ok g d t l =>
      { geometry := g, distance := d, duration := t, legs := l, fallback := false }
    | RouteResp.failure => fallbackRoute geo coords

/-! ## Nearest-road snapping (`OSRMService.snap_to_road`) -/

/-- One waypoint of an OSRM `nearest` response. -/
structure Waypoint where
  location : Point
  distance : ℚ
  name : String
deriving DecidableEq, Repr

/-- `main_road_keywords` in `snap_to_road`. -/
def mainRoadKeywords : List String :=
  ["cadde", "caddesi", "cad.", "cad ",
   "bulvar", "bulvarı", "blv.", "blv ",
   "bağlantı", "ana yol", "anayol",
   "otoyol", "devlet yolu", "d-", "e-", "o-"]

/-- `small_street_patterns` in `snap_to_road`. -/
def smallStreetPatterns : List String :=
  ["sokak", "sokağı", "sokaği",
   " sk.", " sk ", "sk.",
   " sok.", " sok ", "sok.",
   "ara yol", "arayol"]

/-- Python's `sub in s` substring test on character lists. -/
def hasSub (p : List Char) : List Char → Bool
  | [] => p.isEmpty
  | c :: rest => p.isPrefixOf (c :: rest) || hasSub p rest

/-- Python's `name.lower()`, modelled character-wise (ASCII case folding). -/
def lowerChars (s : String) : List Char := s.toList.map Char.toLower

/-- `is_main_road` in `snap_to_road` (empty/missing name is never a main
road): some main-road keyword occurs in the lowercased name. -/
def isMainRoad (name : String) : Bool :=
  name != "" && mainRoadKeywords.any (fun kw => hasSub kw.toList (lowerChars name))

/-- `is_small_street` in `snap_to_road` (empty/missing name is never a small
street): some small-street pattern occurs in the lowercased name. -/
def isSmallStreet (name : String) : Bool :=
  name != "" && smallStreetPatterns.any (fun kw => hasSub kw.toList (lowerChars name))

/-- One step of Python's `min(..., key=lambda w: w.distance)`: keep the
accumulator unless the candidate is strictly closer (so the first minimum
wins). -/
def pickCloser (b x : Waypoint) : Waypoint := if x.distance < b.distance then x else b

/-- Python's `min(lst, key=lambda w: w.distance)` (first minimum wins),
`none` on the empty list. -/
def minByDistance : List Waypoint → Option Waypoint
  | [] => none
  | w :: ws => some (ws.foldl pickCloser w)

/-- The waypoint selection of `snap_to_road` with `prefer_main_roads=True`:
tier 1 takes the nearest main-road waypoint within `3 * max_distance`;
tier 2 the nearest non-small-street waypoint within `3 * max_distance`;
tier 3 the first waypoint within `max_distance`, defaulting to the first
waypoint of the response. -/
def snapSelect (maxDistance : ℚ) (waypoints : List Waypoint) : Option Waypoint :=
  match waypoints with
  | [] => none
  | w0 :: rest =>
    match minByDistance ((w0 :: rest).filter
        (fun w => isMainRoad w.name && w.distance ≤ maxDistance * 3)) with
    | some w => some w
    | none =>
      match minByDistance ((w0 :: rest).filter
          (fun w => !isSmallStreet w.name && w.distance ≤ maxDistance * 3)) with
      | some w => some w
      | none =>
        match (w0 :: rest).find? (fun w => w.distance ≤ maxDistance) with
        | some w => some w
        | none => some w0

/-- The waypoint selection as the specification words it (for the refinement
comparison): tier 2 searches within `max_distance` only, and tier 3 takes the
absolute nearest waypoint. -/
def snapSelectSpec (maxDistance : ℚ) (waypoints : List Waypoint) : Option Waypoint :=
  match waypoints with
  | [] => none
  | w0 :: rest =>
    match minByDistance ((w0 :: rest).filter
        (fun w => isMainRoad w.name && w.distance ≤ maxDistance * 3)) with
    | some w => some w
    | none =>
      match minByDistance ((w0 :: rest).filter
          (fun w => !isSmallStreet w.name && w.distance ≤ maxDistance)) with
      | some w => some w
      | none => minByDistance (w0 :: rest)

/-! ## CVRP feasibility model (`CVRPSolver.solve`) -/

/-- A CVRP instance as configured by `CVRPSolver.solve`: integer distance and
duration matrices (the transit callbacks truncate with `int(...)`), demands,
per-vehicle capacities, the priority-vehicle count and the soft duration
bound `max_route_duration`.  The depot is node `0`, as in
`create_optimized_routes`. -/
structure CVRPInstance where
  numLocations : ℕ
  dist : ℕ → ℕ → ℤ
  dur : ℕ → ℕ → ℤ
  demands : ℕ → ℤ
  capacities : List ℤ
  priorityCount : ℕ
  maxRouteDuration : ℤ

/-- Cumulative value of a transit callback along a node sequence. -/
def chainSum (f : ℕ → ℕ → ℤ) : List ℕ → ℤ
  | [] => 0
  | [_] => 0
  | a :: b :: rest => f a b + chainSum f (b :: rest)

/-- Cumulative duration of a vehicle's route `depot → interior → depot`
(the `Time` dimension's end cumul). -/
def routeDuration (inst : CVRPInstance) (interior : List ℕ) : ℤ :=
  chainSum inst.dur (0 :: interior ++ [0])

/-- Cumulative distance of a vehicle's route (the `Distance` dimension's end
cumul). -/
def routeDistance (inst : CVRPInstance) (interior : List ℕ) : ℤ :=
  chainSum inst.dist (0 :: interior ++ [0])

/-- Cumulative demand on a vehicle (the `Capacity` dimension's end cumul). -/
def routeLoad (inst : CVRPInstance) (interior : List ℕ) : ℤ :=
  (interior.map inst.demands).sum

/-- The non-depot nodes, each to be visited exactly once. -/
def customers (inst : CVRPInstance) : List ℕ :=
  (List.range inst.numLocations).filter (fun i => i ≠ 0)

/-- The hard constraint set of the OR-Tools model built in `CVRPSolver.solve`
over an assignment of one interior node list per vehicle: every non-depot
node visited exactly once (`RoutingModel` semantics); the `Capacity`
dimension with zero slack and the vehicle capacities as hard bounds; the
`Distance` dimension with hard per-vehicle bound `1000000`; and the `Time`
dimension with hard per-vehicle bound `max_route_duration * 3` ("3x buffer to
allow solutions" in the source). -/
def feasibleAssignment (inst : CVRPInstance) (a : List (List ℕ)) : Prop :=
  a.length = inst.capacities.length ∧
  a.flatten.Perm (customers inst) ∧
  (∀ p ∈ a.zip inst.capacities, routeLoad inst p.1 ≤ p.2) ∧
  (∀ r ∈ a, routeDistance inst r ≤ 1000000) ∧
  (∀ r ∈ a, routeDuration inst r ≤ 3 * inst.maxRouteDuration)

instance (inst : CVRPInstance) (a : List (List ℕ)) :
    Decidable (feasibleAssignment inst a) := by
  unfold feasibleAssignment
  infer_instance

/-- `time_dimension.SetCumulVarSoftUpperBound(end_index, max_route_duration,
10000)`: each vehicle pays `10000` per duration unit its route runs over
`max_route_duration`. -/
def softTimePenalty (inst : CVRPInstance) (interior : List ℕ) : ℤ :=
  10000 * max 0 (routeDuration inst interior - inst.maxRouteDuration)

/-- `SetSpanCostCoefficientForVehicle(1, vehicle_id)`: each route contributes
its span (duration) once to the objective. -/
def spanCost (inst : CVRPInstance) (interior : List ℕ) : ℤ :=
  routeDuration inst interior

/-- Fixed costs of used (non-empty) vehicles. -/
def usedFixedCosts (inst : CVRPInstance) (a : List (List ℕ)) : ℤ :=
  ((List.range a.length).map fun i =>
    if a.getD i [] ≠ [] then fixedCostOfVehicle inst.priorityCount i else 0).sum

/-- The objective minimized by the solver: arc distances, fixed costs of used
vehicles, span costs, and soft-upper-bound penalties. -/
def objectiveValue (inst : CVRPInstance) (a : List (List ℕ)) : ℤ :=
  (a.map (routeDistance inst)).sum + usedFixedCosts inst a +
    (a.map (spanCost inst)).sum + (a.map (softTimePenalty inst)).sum

/-- C3 counterexample instance: one customer (node 1) with demand 1 and a
vehicle of capacity 10, but each depot↔customer leg lasts 400 s while
`max_route_duration = 100` s: the only covering route lasts 800 s, beyond
the hard cap `3 × 100 = 300` s. -/
def hardCapInstance : CVRPInstance where
  numLocations := 2
  dist := fun _ _ => 0
  dur := fun i j => if i = j then 0 else 400
  demands := fun i => if i = 1 then 1 else 0
  capacities := [10]
  priorityCount := 0
  maxRouteDuration := 100

/-- An instance whose only covering route lasts 160 s with
`max_route_duration = 100` s: inside the soft band `(T_max, 3 × T_max]`. -/
def softBandInstance : CVRPInstance where
  numLocations := 2
  dist := fun _ _ => 0
  dur := fun i j => if i = j then 0 else 80
  demands := fun i => if i = 1 then 1 else 0
  capacities := [10]
  priorityCount := 0
  maxRouteDuration := 100

/-! ## Plan-creation solve retry (`create_simulation`, step 4) -/

/-- The solver outcome fields that the retry loop inspects. -/
structure SolveOutcome where
  status : String
  vehiclesUsed : ℕ
deriving DecidableEq, Repr

/-- `optimization_result.get("status") != "NO_SOLUTION" and
optimization_result.get("vehicles_used", 0) > 0`. -/
def solveAcceptable (o : SolveOutcome) : Bool :=
  (o.status != "NO_SOLUTION") && decide (0 < o.vehiclesUsed)

/-- Fleet enlargement on a failed attempt: `"small"` adds two 16-seaters,
`"large"` adds two 27-seaters, anything else (`"auto"`) adds one of each. -/
def escalateFleet (priority : String) (n : ℕ × ℕ) : ℕ × ℕ :=
  if priority = "small" then (n.1 + 2, n.2)
  else if priority = "large" then (n.1, n.2 + 2)
  else (n.1 + 1, n.2 + 1)

/-- The `for attempt in range(max_retries)` loop of `create_simulation`
step 4, with `fuel` attempts remaining (`max_retries = 5`): run the solver;
stop on an acceptable result; otherwise enlarge the fleet and retry — the
last failed attempt still enlarges the fleet before the loop ends, as in the
source.  Returns the final solver outcome and fleet.  (`fuel = 0` encodes
`range(0)`, which the source never reaches; the loop is entered with 5.) -/
def retryLoop (solve : ℕ × ℕ → SolveOutcome) (priority : String) :
    ℕ → ℕ × ℕ → SolveOutcome × ℕ × ℕ
  | 0, n => (⟨"NO_SOLUTION", 0⟩, n)
  | fuel + 1, n =>
    let res := solve n
    if solveAcceptable res then (res, n)
    else if fuel = 0 then (res, escalateFleet priority n)
    else retryLoop solve priority fuel (escalateFleet priority n)

/-- The user-visible error of `create_simulation` when the retry loop ends
without an acceptable solution (the source raises an `HTTPException` whose
Turkish detail says the given time constraint admits no solution). -/
def timeInfeasibleError : String := "time constraint infeasible"

/-- Step 4 with its post-loop check: 5 attempts, then either the solution
with the final fleet or the user-visible time-constraint error. -/
def solveWithRetry (solve : ℕ × ℕ → SolveOutcome) (priority : String) (n0 : ℕ × ℕ) :
    Except String (SolveOutcome × ℕ × ℕ) :=
  let r := retryLoop solve priority 5 n0
  if solveAcceptable r.1 then Except.ok r
  else Except.error timeInfeasibleError

/-- Steps 4 and 6 of `create_simulation`, restricted to what decides C4: the
`INSERT INTO simulations` happens only after the retry check passes, so a
retry failure raises with the plan table untouched. -/
def createPlanPersist (plans : List String) (planRow : String)
    (solve : ℕ × ℕ → SolveOutcome) (priority : String) (n0 : ℕ × ℕ) :
    Except String (List String) :=
  match solveWithRetry solve priority n0 with
  | Except.error e => Except.error e
  | Except.ok _ => Except.ok (plans ++ [planRow])

/-! ## Clustering (`clustering_service.py`) -/

/-- An input employee record (`{'id', 'lat', 'lng'}` in `cluster_employees`). -/
structure EmpData where
  id : ℕ
  lat : ℚ
  lng : ℚ
deriving DecidableEq, Repr

/-- A stop dict as built by `cluster_with_dbscan` and
`refine_clusters_for_walking_distance` (`is_individual_stop` is absent for
density stops, modelled as `false`). -/
structure ClusterStop where
  cluster_id : ℤ
  location : Point
  employee_count : ℕ
  employee_ids : List ℕ
  max_distance_to_centroid : ℚ
  is_individual_stop : Bool
deriving DecidableEq, Repr

/-- A default stop for `getD` indexing. -/
def dummyStop : ClusterStop := ⟨0, ⟨0, 0⟩, 0, [], 0, false⟩

/-- An unclustered (noise) employee entry. -/
structure UnclusteredEmp where
  employee_id : ℕ
  location : Point
deriving DecidableEq, Repr

/-- Result of clustering: stops and the unclustered residual. -/
structure ClusterResult where
  stops : List ClusterStop
  unclustered : List UnclusteredEmp
deriving DecidableEq, Repr

/-- `i` and `j` are distinct points within `eps` meters of each other in the
precomputed geodesic distance matrix (`_calculate_distance_matrix`). -/
def adjacentB (geo : Geo) (pts : List Point) (eps : ℚ) (i j : ℕ) : Bool :=
  decide (i ≠ j) && decide (geo (pts.getD i ⟨0, 0⟩) (pts.getD j ⟨0, 0⟩) ≤ eps)

/-- DBSCAN noise under `min_samples = 2`: a point with no other point within
`eps` (every non-noise point is then a core point). -/
def isNoiseB (geo : Geo) (pts : List Point) (eps : ℚ) (i : ℕ) : Bool :=
  !(List.range pts.length).any (adjacentB geo pts eps i)

/-- ε-connectivity within `fuel` steps.  With `min_samples = 2` the DBSCAN
clusters of `sklearn` are exactly the connected components of the
ε-neighbourhood graph, and paths of length `pts.length` suffice. -/
def reachB (geo : Geo) (pts : List Point) (eps : ℚ) : ℕ → ℕ → ℕ → Bool
  | 0, i, j => i == j
  | fuel + 1, i, j => i == j ||
      (List.range pts.length).any (fun k =>
        adjacentB geo pts eps i k && reachB geo pts eps fuel k j)

/-- Group a list of indices by a boolean relation, in first-occurrence order
(the grouping of indices by DBSCAN label performed by the
`clusters[label].append` loop in `cluster_with_dbscan`). -/
def groupIndices (sameB : ℕ → ℕ → Bool) : List ℕ → List (List ℕ)
  | [] => []
  | i :: rest =>
    (i :: rest.filter (fun j => sameB i j)) ::
      groupIndices sameB (rest.filter (fun j => !sameB i j))
termination_by l => l.length
decreasing_by
  simp only [List.length_cons]
  exact Nat.lt_succ_of_le (List.length_filter_le _ _)

/-- The clusters of `cluster_with_dbscan` as index groups: the non-noise
indices grouped by ε-connectivity, in first-occurrence order (matching
the label order of the source's `clusters` dict). -/
def dbscanIndexGroups (geo : Geo) (pts : List Point) (eps : ℚ) : List (List ℕ) :=
  groupIndices (fun i j => reachB geo pts eps pts.length i j)
    ((List.range pts.length).filter (fun i => !isNoiseB geo pts eps i))

/-- `np.mean` centroid of a member index set. -/
def centroidOf (pts : List Point) (mems : List ℕ) : Point :=
  { lat := (mems.map (fun i => (pts.getD i ⟨0, 0⟩).lat)).sum / mems.length
    lng := (mems.map (fun i => (pts.getD i ⟨0, 0⟩).lng)).sum / mems.length }

/-- The `max_dist` loop of `cluster_with_dbscan`: starting from 0, the
maximum geodesic distance from the centroid to a member. -/
def maxDistToCentroid (geo : Geo) (pts : List Point) (c : Point) (mems : List ℕ) : ℚ :=
  mems.foldl (fun m i => max m (geo c (pts.getD i ⟨0, 0⟩))) 0

/-- One stop dict of `cluster_with_dbscan` from a member index group. -/
def mkDbscanStop (geo : Geo) (pts : List Point) (ids : List ℕ) (label : ℤ)
    (mems : List ℕ) : ClusterStop :=
  let c := centroidOf pts mems
  { cluster_id := label
    location := c
    employee_count := mems.length
    employee_ids := mems.map (fun i => ids.getD i 0)
    max_distance_to_centroid := maxDistToCentroid geo pts c mems
    is_individual_stop := false }

/-- Stops from the index groups, labels assigned in group order. -/
def mkDbscanStops (geo : Geo) (pts : List Point) (ids : List ℕ) :
    List (List ℕ) → ℤ → List ClusterStop
  | [], _ => []
  | mems :: gs, k => mkDbscanStop geo pts ids k mems :: mkDbscanStops geo pts ids gs (k + 1)

/-- `ClusteringService.cluster_with_dbscan`: DBSCAN with `eps` the walking
cap over the precomputed geodesic matrix, `min_samples = 2`; noise points
become the unclustered residual. -/
def clusterWithDbscan (geo : Geo) (eps : ℚ) (pts : List Point) (ids : List ℕ) :
    ClusterResult :=
  { stops := mkDbscanStops geo pts ids (dbscanIndexGroups geo pts eps) 0
    unclustered := ((List.range pts.length).filter (fun i => isNoiseB geo pts eps i)).map
      (fun i => ⟨ids.getD i 0, pts.getD i ⟨0, 0⟩⟩) }

/-- The stop update performed when `refine_clusters_for_walking_distance`
assigns an unclustered employee to a stop at distance `dist`. -/
def attachEmp (emp : UnclusteredEmp) (dist : ℚ) (s : ClusterStop) : ClusterStop :=
  { s with
    employee_count := s.employee_count + 1
    employee_ids := s.employee_ids ++ [emp.employee_id]
    max_distance_to_centroid := max s.max_distance_to_centroid dist }

/-- The inner `for stop in stops` loop of
`refine_clusters_for_walking_distance`: attach `emp` to the first stop within
`max_walking_distance`, or report failure. -/
def attachToStop (geo : Geo) (W : ℚ) (emp : UnclusteredEmp) :
    List ClusterStop → Option (List ClusterStop)
  | [] => none
  | s :: rest =>
    if geo emp.location s.location ≤ W then
      some (attachEmp emp (geo emp.location s.location) s :: rest)
    else
      (attachToStop geo W emp rest).map (s :: ·)

/-- The outer `for emp in unclustered` loop of
`refine_clusters_for_walking_distance`: employees that attach nowhere are
collected, in order, as still unclustered. -/
def refinePass (geo : Geo) (W : ℚ) :
    List ClusterStop → List UnclusteredEmp → List ClusterStop × List UnclusteredEmp
  | stops, [] => (stops, [])
  | stops, emp :: rest =>
    match attachToStop geo W emp stops with
    | some st => refinePass geo W st rest
    | none =>
      let r := refinePass geo W stops rest
      (r.1, emp :: r.2)

/-- Individual stops for the still-unclustered employees
(`cluster_id = 1000 + idx`, one member, walk 0). -/
def individualStops : List UnclusteredEmp → ℕ → List ClusterStop
  | [], _ => []
  | e :: rest, k =>
    ⟨1000 + (k : ℤ), e.location, 1, [e.employee_id], 0, true⟩ :: individualStops rest (k + 1)

/-- `ClusteringService.refine_clusters_for_walking_distance`: attach each
unclustered employee to the first stop within the cap, then append an
individual stop for each employee still unattached; the returned residual is
always empty. -/
def refineClusters (geo : Geo) (W : ℚ) (stops : List ClusterStop)
    (unclustered : List UnclusteredEmp) : List ClusterStop × List UnclusteredEmp :=
  let r := refinePass geo W stops unclustered
  (r.1 ++ individualStops r.2 0, [])

/-- `cluster_employees` with the default `method="dbscan"` (the method the
orchestrator uses): cluster, then refine when any employee is unclustered. -/
def cluster_employees (geo : Geo) (employeeData : List EmpData) (maxWalkingDistance : ℚ) :
    ClusterResult :=
  let pts := employeeData.map (fun e => Point.mk e.lat e.lng)
  let ids := employeeData.map EmpData.id
  let r := clusterWithDbscan geo maxWalkingDistance pts ids
  if r.unclustered.isEmpty then r
  else
    let s := refineClusters geo maxWalkingDistance r.stops r.unclustered
    { stops := s.1, unclustered := s.2 }

/-- The four-employee chain: consecutive neighbours 150 m apart on one
meridian (latitudes in metres along the meridian), ids 1–4. -/
def chain4 : List EmpData := [⟨1, 0, 0⟩, ⟨2, 150, 0⟩, ⟨3, 300, 0⟩, ⟨4, 450, 0⟩]

/-! ## Plan editor (`simulations.py`: preview endpoints, employee add) -/

/-- A stop object of a persisted route's `stops` JSON; walking distances are
`(employee_id, walking_distance)` pairs as in the source's dicts. -/
structure StopJson where
  location : Point
  employee_ids : List ℕ
  employee_names : List String
  employee_count : ℕ
  employee_walking_distances : List (ℕ × ℤ)
  max_walking_distance : ℤ
  road_name : String
deriving DecidableEq, Repr

/-- A default stop for `getD` indexing. -/
def dummyStopJson : StopJson := ⟨⟨0, 0⟩, [], [], 0, [], 0, ""⟩

/-- A `simulation_routes` row. -/
structure RouteRow where
  id : ℕ
  simulation_id : ℕ
  vehicle_id : ℕ
  vehicle_type : String
  capacity : ℕ
  passengers : ℕ
  distance : ℚ
  duration : ℚ
  polyline : List Point
  stops : List StopJson
deriving DecidableEq, Repr

/-- A `simulations` row (the fields the editor touches). -/
structure SimRow where
  id : ℕ
  depot : Point
  traffic_mode : String
  total_distance : ℚ
  total_duration : ℚ
  total_passengers : ℕ
deriving DecidableEq, Repr

/-- An `employees` row. -/
structure EmployeeRow where
  id : ℕ
  name : String
  home : Point
deriving DecidableEq, Repr

/-- The database state the plan editor reads and writes. -/
structure DBState where
  sims : List SimRow
  routes : List RouteRow
  employees : List EmployeeRow
deriving DecidableEq, Repr

/-- `SELECT ... FROM simulations WHERE id = :sim_id`. -/
def findSim (db : DBState) (simId : ℕ) : Option SimRow :=
  db.sims.find? (fun s => s.id == simId)

/-- `SELECT ... FROM simulation_routes WHERE id = :route_id AND
simulation_id = :sim_id`. -/
def findRoute (db : DBState) (simId routeId : ℕ) : Option RouteRow :=
  db.routes.find? (fun r => r.id == routeId && r.simulation_id == simId)

/-- `SELECT ... FROM employees WHERE id = :emp_id`. -/
def findEmployee (db : DBState) (empId : ℕ) : Option EmployeeRow :=
  db.employees.find? (fun e => e.id == empId)

/-- The preview payload common to the four preview endpoints. -/
structure PreviewResp where
  old_distance : ℚ
  old_duration : ℚ
  new_distance : ℚ
  new_duration : ℚ
  distance_diff : ℚ
  duration_diff : ℚ
  distance_diff_percent : ℚ
  duration_diff_percent : ℚ
deriving DecidableEq, Repr

/-- The diff computation shared by the preview endpoints: diffs are new − old
and percents are rounded to one decimal, 0 when the old value is 0. -/
def mkPreviewResp (oldD oldT newD newT : ℚ) : PreviewResp :=
  { old_distance := oldD
    old_duration := oldT
    new_distance := newD
    new_duration := newT
    distance_diff := newD - oldD
    duration_diff := newT - oldT
    distance_diff_percent := if oldD = 0 then 0 else pyRound1 ((newD - oldD) / oldD * 100)
    duration_diff_percent := if oldT = 0 then 0 else pyRound1 ((newT - oldT) / oldT * 100) }

/-- One entry of a move-stop request. -/
structure StopUpdate where
  stop_index : ℕ
  lat : ℚ
  lng : ℚ
deriving DecidableEq, Repr

/-- Apply the requested location updates to the stop list (in-range indices
only; a later update to the same index overwrites an earlier one, matching
the `stop_updates` dict built in the source). -/
def applyStopLocationUpdates (stops : List StopJson) (ups : List StopUpdate) :
    List StopJson :=
  ups.foldl (fun acc u =>
    if u.stop_index < acc.length then
      acc.set u.stop_index
        { acc.getD u.stop_index dummyStopJson with location := ⟨u.lat, u.lng⟩ }
    else acc) stops

/-- `route_coords = [depot] + [stop locations] + [depot]`. -/
def editorRouteCoords (depot : Point) (stops : List StopJson) : List Point :=
  depot :: (stops.map StopJson.location ++ [depot])

/-- `preview_route_update`: read the simulation and route, apply the stop
moves to a copy, ask the engine, and return diffs.  No write: the state is
returned unchanged on every path. -/
def previewRouteUpdate (db : DBState) (osrm : List Point → RouteResult)
    (simId routeId : ℕ) (ups : List StopUpdate) :
    Except String PreviewResp × DBState :=
  match findSim db simId with
  | none => (Except.error "Simülasyon bulunamadı", db)
  | some sim =>
    match findRoute db simId routeId with
    | none => (Except.error "Rota bulunamadı", db)
    | some route =>
      let tf := trafficFactor sim.traffic_mode
      let stops2 := applyStopLocationUpdates route.stops ups
      let rd := osrm (editorRouteCoords sim.depot stops2)
      (Except.ok (mkPreviewResp route.distance route.duration rd.distance (rd.duration * tf)),
        db)

/-- `stops' = stops[i:] + stops[:i]`. -/
def rotateStops (stops : List StopJson) (i : ℕ) : List StopJson :=
  stops.drop i ++ stops.take i

/-- `preview_route_reorder`: rotate so the designated stop is first, ask the
engine, return diffs; invalid indices are rejected.  No write. -/
def previewRouteReorder (db : DBState) (osrm : List Point → RouteResult)
    (simId routeId : ℕ) (firstIdx : ℤ) :
    Except String PreviewResp × DBState :=
  match findSim db simId with
  | none => (Except.error "Simülasyon bulunamadı", db)
  | some sim =>
    match findRoute db simId routeId with
    | none => (Except.error "Rota bulunamadı", db)
    | some route =>
      if firstIdx < 0 ∨ (route.stops.length : ℤ) ≤ firstIdx then
        (Except.error "Geçersiz durak indeksi", db)
      else
        let tf := trafficFactor sim.traffic_mode
        let stops2 := rotateStops route.stops firstIdx.toNat
        let rd := osrm (editorRouteCoords sim.depot stops2)
        (Except.ok (mkPreviewResp route.distance route.duration rd.distance
          (rd.duration * tf)), db)

/-- The employee-membership test `request.employee_id in stop["employee_ids"]`
over a route's stops. -/
def stopsContainEmployee (stops : List StopJson) (empId : ℕ) : Bool :=
  stops.any (fun s => s.employee_ids.contains empId)

/-- The scan of `_build_employee_stop`: `best = None; for i, stop: d = dist;
if d < best and d <= 400: best = (i, d)` — the first minimum wins and only
stops within 400 m are eligible. -/
def bestStopAux (geo : Geo) (p : Point) :
    List StopJson → ℕ → Option (ℕ × ℚ) → Option (ℕ × ℚ)
  | [], _, acc => acc
  | s :: rest, i, acc =>
    let d := geo p s.location
    let acc2 := match acc with
      | none => if d ≤ 400 then some (i, d) else none
      | some (j, bd) => if d < bd ∧ d ≤ 400 then some (i, d) else some (j, bd)
    bestStopAux geo p rest (i + 1) acc2

/-- The index and distance of the closest stop within 400 m, if any. -/
def bestStopIdx (geo : Geo) (p : Point) (stops : List StopJson) : Option (ℕ × ℚ) :=
  bestStopAux geo p stops 0 none

/-- Python's `max(w["walking_distance"] for w in walks)` over a nonempty
list (0 for the empty list, never hit in the source). -/
def maxWalkOf : List (ℕ × ℤ) → ℤ
  | [] => 0
  | w :: ws => ws.foldl (fun m x => max m x.2) w.2

/-- The stop update of `_build_employee_stop` when an existing stop is
chosen: append id, name and the rounded walking distance, recount, and set
the max walking distance to the maximum over the recorded walks. -/
def addMemberToStop (empId : ℕ) (name : String) (d : ℚ) (s : StopJson) : StopJson :=
  { s with
    employee_ids := s.employee_ids ++ [empId]
    employee_names := s.employee_names ++ [name]
    employee_count := s.employee_ids.length + 1
    employee_walking_distances := s.employee_walking_distances ++ [(empId, pyRound d)]
    max_walking_distance := maxWalkOf (s.employee_walking_distances ++ [(empId, pyRound d)]) }

/-- The new stop of `_build_employee_stop` when no existing stop is within
400 m: a single-member stop at the employee's home with walk 0. -/
def newEmployeeStop (empId : ℕ) (name : String) (home : Point) : StopJson :=
  { location := home
    employee_ids := [empId]
    employee_names := [name]
    employee_count := 1
    employee_walking_distances := [(empId, 0)]
    max_walking_distance := 0
    road_name := "Manuel ekleme" }

/-- `_build_employee_stop`: fetch the employee; attach to the closest stop
within 400 m if one exists, else append a new individual stop at the end;
`none` when the employee does not exist. -/
def buildEmployeeStop (geo : Geo) (db : DBState) (employeeId : ℕ)
    (existingStops : List StopJson) : Option (List StopJson × String × ℕ) :=
  match findEmployee db employeeId with
  | none => none
  | some emp =>
    match bestStopIdx geo emp.home existingStops with
    | some (i, d) =>
      some (existingStops.set i
        (addMemberToStop employeeId emp.name d (existingStops.getD i dummyStopJson)),
        emp.name, i)
    | none =>
      some (existingStops ++ [newEmployeeStop employeeId emp.name emp.home],
        emp.name, existingStops.length)

/-- `preview_add_employee`: reject duplicates and full vehicles, build the
prospective stop list, ask the engine, return diffs.  No write. -/
def previewAddEmployee (geo : Geo) (db : DBState) (osrm : List Point → RouteResult)
    (simId routeId empId : ℕ) : Except String PreviewResp × DBState :=
  match findSim db simId with
  | none => (Except.error "Simülasyon bulunamadı", db)
  | some sim =>
    match findRoute db simId routeId with
    | none => (Except.error "Rota bulunamadı", db)
    | some route =>
      if stopsContainEmployee route.stops empId then
        (Except.error "Personel zaten bu rotada", db)
      else if (if route.capacity = 0 then 99 else route.capacity) ≤ route.passengers then
        (Except.error "Araç kapasitesi dolu", db)
      else
        match buildEmployeeStop geo db empId route.stops with
        | none => (Except.error "Personel bulunamadı", db)
        | some r =>
          let tf := trafficFactor sim.traffic_mode
          let rd := osrm (editorRouteCoords sim.depot r.1)
          (Except.ok (mkPreviewResp route.distance route.duration rd.distance
            (rd.duration * tf)), db)

/-- The per-stop update of `_apply_employee_removal` on the first stop that
contains the employee: drop the name at the id's position, filter the walk
entry, remove the id (first occurrence), recount. -/
def removeMemberFromStop (empId : ℕ) (s : StopJson) : StopJson :=
  let i := s.employee_ids.indexOf empId
  { s with
    employee_names := if i < s.employee_names.length then s.employee_names.eraseIdx i
      else s.employee_names
    employee_walking_distances :=
      s.employee_walking_distances.filter (fun w => w.1 ≠ empId)
    employee_ids := s.employee_ids.erase empId
    employee_count := (s.employee_ids.erase empId).length }

/-- The `for stop in updated_stops` loop of `_apply_employee_removal`:
update the first stop containing the employee (`break` after it). -/
def removeEmployeeScan (empId : ℕ) : List StopJson → List StopJson × Bool
  | [] => ([], false)
  | s :: rest =>
    if s.employee_ids.contains empId then
      (removeMemberFromStop empId s :: rest, true)
    else
      let r := removeEmployeeScan empId rest
      (s :: r.1, r.2)

/-- Drop stops with no members left. -/
def dropEmptyStops (stops : List StopJson) : List StopJson :=
  stops.filter (fun s => decide (0 < s.employee_count) || decide (0 < s.employee_ids.length))

/-- `_apply_employee_removal`. -/
def applyEmployeeRemoval (stops : List StopJson) (empId : ℕ) :
    List StopJson × Bool :=
  let r := removeEmployeeScan empId stops
  (dropEmptyStops r.1, r.2)

/-- `preview_remove_employee`: apply the removal to a copy, ask the engine
when stops remain, return diffs.  No write. -/
def previewRemoveEmployee (db : DBState) (osrm : List Point → RouteResult)
    (simId routeId empId : ℕ) : Except String PreviewResp × DBState :=
  match findSim db simId with
  | none => (Except.error "Simülasyon bulunamadı", db)
  | some sim =>
    match findRoute db simId routeId with
    | none => (Except.error "Rota bulunamadı", db)
    | some route =>
      let r := applyEmployeeRemoval route.stops empId
      if !r.2 then (Except.error "Personel bu rotada bulunamadı", db)
      else
        let tf := trafficFactor sim.traffic_mode
        let coords := editorRouteCoords sim.depot r.1
        if 2 < coords.length then
          let rd := osrm coords
          (Except.ok (mkPreviewResp route.distance route.duration rd.distance
            (rd.duration * tf)), db)
        else
          (Except.ok (mkPreviewResp route.distance route.duration 0 0), db)

/-- A sample stop 300 m up the meridian with one member. -/
def sampleStopFar : StopJson := ⟨⟨300, 0⟩, [3], ["Ayşe"], 1, [(3, 5)], 5, "A Caddesi"⟩

/-- A sample stop 100 m up the meridian with one member. -/
def sampleStopNear : StopJson := ⟨⟨100, 0⟩, [4], ["Deniz"], 1, [(4, 7)], 7, "B Caddesi"⟩

/-- A sample route row over the two sample stops. -/
def sampleRoute : RouteRow :=
  ⟨10, 1, 0, "27-seater", 27, 2, 5000, 600, [], [sampleStopFar, sampleStopNear]⟩

/-- A sample simulation row. -/
def sampleSim : SimRow := ⟨1, ⟨0, 0⟩, "none", 5000, 600, 2⟩

/-- A sample database: one simulation, one route, one addable employee at the
meridian origin. -/
def sampleDB : DBState :=
  ⟨[sampleSim], [sampleRoute], [⟨9, "Ali", ⟨0, 0⟩⟩]⟩

/-- A constant routing-engine stub for witnesses. -/
def sampleOsrm : List Point → RouteResult := fun _ => ⟨[], 7000, 700, [], false⟩

/-! ## Theorems -/

/-- C5 (counterexample): the claim states that when `P = 0` every vehicle
receives the *priority* fixed cost.  In `CVRPSolver.solve`, with
`priority_vehicle_count = 0`, vehicle `0` receives the non-priority fixed
cost `500000`, not the priority cost `100000`. -/
theorem fixedCost_allNonPriority_when_P_zero :
    fixedCostOfVehicle 0 0 = NON_PRIORITY_VEHICLE_COST ∧
    fixedCostOfVehicle 0 0 ≠ PRIORITY_VEHICLE_COST := by decide

/-- C5 (amended): vehicle `i` incurs the priority fixed cost `C_prio` when
`0 < P` and `i < P`, and the non-priority cost `C_nonprio` when `P ≤ i`;
`C_nonprio = 5 × C_prio`; and when `P = 0` every vehicle uniformly receives
the *non-priority* fixed cost (so no vehicle is preferred); `"auto"` fleet
construction sets `P = 0`. -/
theorem fixedCost_spec :
    (∀ P i : ℕ, 0 < P → i < P → fixedCostOfVehicle P i = PRIORITY_VEHICLE_COST) ∧
    (∀ P i : ℕ, P ≤ i → fixedCostOfVehicle P i = NON_PRIORITY_VEHICLE_COST) ∧
    (∀ i : ℕ, fixedCostOfVehicle 0 i = NON_PRIORITY_VEHICLE_COST) ∧
    NON_PRIORITY_VEHICLE_COST = 5 * PRIORITY_VEHICLE_COST ∧
    (∀ n16 n27 : ℕ, ∀ b : ℤ, (fleetInit "auto" n16 n27 b).priorityCount = 0) := by
  refine ⟨?_, ?_, ?_, by decide, ?_⟩
  · intro P i hP hi
    simp [fixedCostOfVehicle, hP, hi]
  · intro P i hi
    simp only [fixedCostOfVehicle, ite_eq_right_iff]
    intro h
    omega
  · intro i
    simp [fixedCostOfVehicle]
  · intro n16 n27 b
    simp [fleetInit]

/-- C5 (witness for `fixedCost_spec`): concrete instances of each clause. -/
theorem fixedCost_spec_witness :
    fixedCostOfVehicle 3 1 = PRIORITY_VEHICLE_COST ∧
    fixedCostOfVehicle 3 5 = NON_PRIORITY_VEHICLE_COST ∧
    fixedCostOfVehicle 0 2 = NON_PRIORITY_VEHICLE_COST ∧
    (fleetInit "auto" 5 5 0).priorityCount = 0 :=
  ⟨fixedCost_spec.1 3 1 (by decide) (by decide),
   fixedCost_spec.2.1 3 5 (by decide),
   fixedCost_spec.2.2.1 2,
   fixedCost_spec.2.2.2.2 5 5 0⟩

/-- C8 (counterexample): the claim is an "iff"; here a `to_depot` route whose
engine geometry came back empty gets the polyline `[depot]`, which *starts*
with the depot even though `to_depot ∉ {ring, to_home}`, refuting the
left-to-right reading "starts with depot → route_type ∈ {ring, to_home}". -/
theorem polyline_endpoints_iff_false :
    (ensurePolylineEndpoints RouteType.to_depot ⟨41, 29⟩ []).head? =
      some (⟨41, 29⟩ : Point) ∧
    RouteType.to_depot ≠ RouteType.ring ∧ RouteType.to_depot ≠ RouteType.to_home := by
  decide

/-- The last element of `l ++ [a]` is `a`. -/
theorem getLast?_app (l : List Point) (a : Point) : (l ++ [a]).getLast? = some a :=
  List.getLast?_concat _

/-- `ensureDepotStart` always yields a list starting with the depot. -/
theorem ensureDepotStart_head (depot : Point) (l : List Point) :
    (ensureDepotStart depot l).head? = some depot := by
  unfold ensureDepotStart
  by_cases hc : l.head? = some depot
  · rw [if_neg (not_not.mpr hc)]
    exact hc
  · rw [if_pos hc]
    rfl

/-- `ensureDepotEnd` always yields a list ending with the depot. -/
theorem ensureDepotEnd_last (depot : Point) (l : List Point) :
    (ensureDepotEnd depot l).getLast? = some depot := by
  unfold ensureDepotEnd
  by_cases hc : l.getLast? = some depot
  · rw [if_neg (not_not.mpr hc)]
    exact hc
  · rw [if_pos hc]
    exact getLast?_app l depot

/-- `ensureDepotStart` never returns the empty list. -/
theorem ensureDepotStart_ne_nil (depot : Point) (l : List Point) :
    ensureDepotStart depot l ≠ [] := by
  unfold ensureDepotStart
  by_cases hc : l.head? = some depot
  · rw [if_neg (not_not.mpr hc)]
    intro h
    rw [h] at hc
    exact Option.noConfusion hc
  · rw [if_pos hc]
    exact List.cons_ne_nil _ _

/-- `ensureDepotEnd` preserves the head of a nonempty list. -/
theorem ensureDepotEnd_head (depot : Point) (l : List Point) (h : l ≠ []) :
    (ensureDepotEnd depot l).head? = l.head? := by
  unfold ensureDepotEnd
  by_cases hc : l.getLast? = some depot
  · rw [if_neg (not_not.mpr hc)]
  · rw [if_pos hc]
    cases l with
    | nil => exact absurd rfl h
    | cons a as => rfl

/-- C8 (amended): only the forward implications hold: for every depot point
and every engine polyline, a `ring` or `to_home` polyline starts with the
depot and a `ring` or `to_depot` polyline ends with the depot. -/
theorem polyline_endpoints_forward (depot : Point) (poly : List Point) :
    (ensurePolylineEndpoints RouteType.ring depot poly).head? = some depot ∧
    (ensurePolylineEndpoints RouteType.ring depot poly).getLast? = some depot ∧
    (ensurePolylineEndpoints RouteType.to_home depot poly).head? = some depot ∧
    (ensurePolylineEndpoints RouteType.to_depot depot poly).getLast? = some depot := by
  unfold ensurePolylineEndpoints
  by_cases hemp : poly.isEmpty
  · simp [hemp]
  · simp only [hemp, Bool.false_eq_true, if_false]
    refine ⟨?_, ensureDepotEnd_last _ _, ensureDepotStart_head _ _, ensureDepotEnd_last _ _⟩
    rw [ensureDepotEnd_head depot _ (ensureDepotStart_ne_nil depot poly)]
    exact ensureDepotStart_head depot poly

/-- Indexing a mapped range: `((List.range n).map f).getD i d = f i` for `i < n`. -/
theorem getD_map_range {α : Type} {n i : ℕ} (hi : i < n) (f : ℕ → α) (d : α) :
    ((List.range n).map f).getD i d = f i := by
  rw [List.getD_eq_getElem?_getD, List.getElem?_map, List.getElem?_range hi]
  rfl

/-- C7 (counterexample): the claim states the fallback results contain
great-circle distances.  For a route request over two meridian points 1000 m
apart, the fallback's reported distance is `1400` — the 1.4 road-tortuosity
factor is applied to the distance itself, not just to the duration. -/
theorem fallback_route_distance_inflated :
    pathLength geoLat [(⟨0, 0⟩ : Point), ⟨1000, 0⟩] = 1000 ∧
    (getRoute geoLat [(⟨0, 0⟩ : Point), ⟨1000, 0⟩] RouteResp.failure).distance = 1400 ∧
    (getRoute geoLat [(⟨0, 0⟩ : Point), ⟨1000, 0⟩] RouteResp.failure).distance ≠
      pathLength geoLat [(⟨0, 0⟩ : Point), ⟨1000, 0⟩] := by
  norm_num [getRoute, fallbackRoute, pathLength, geoLat]

/-- C7 (amended): on engine failure (with at least two coordinates, so that a
call actually happens) the matrix fallback has geodesic entries with a zero
diagonal and durations `distance × 1.4 / (30 km/h)`, and the route fallback
returns the input points as the polyline, distance `1.4 ×` the geodesic path
length, duration that distance over 30 km/h, both flagged `fallback = true`. -/
theorem fallback_results_semantics (geo : Geo) (coords : List Point)
    (h2 : 2 ≤ coords.length) :
    (getDistanceMatrix geo coords TableResp.failure).fallback = true ∧
    (∀ i j, i < coords.length → j < coords.length →
      ((((getDistanceMatrix geo coords TableResp.failure).distances.getD i []).getD j 0 =
        if i = j then 0 else geo (coords.getD i ⟨0, 0⟩) (coords.getD j ⟨0, 0⟩)) ∧
      (((getDistanceMatrix geo coords TableResp.failure).durations.getD i []).getD j 0 =
        (((getDistanceMatrix geo coords TableResp.failure).distances.getD i []).getD j 0)
          * (14/10) / avgSpeedMs))) ∧
    (getRoute geo coords RouteResp.failure).fallback = true ∧
    (getRoute geo coords RouteResp.failure).geometry = coords ∧
    (getRoute geo coords RouteResp.failure).distance = pathLength geo coords * (14/10) ∧
    (getRoute geo coords RouteResp.failure).duration =
      pathLength geo coords * (14/10) / avgSpeedMs := by
  have hn : ¬ coords.length < 2 := by omega
  refine ⟨?_, ?_, ?_, ?_, ?_, ?_⟩
  · simp [getDistanceMatrix, hn, fallbackDistanceMatrix]
  · intro i j hi hj
    constructor
    · simp only [getDistanceMatrix, hn, if_false, fallbackDistanceMatrix]
      rw [getD_map_range hi, getD_map_range hj]
    · simp only [getDistanceMatrix, hn, if_false, fallbackDistanceMatrix]
      rw [getD_map_range hi, getD_map_range hj, getD_map_range hi, getD_map_range hj]
      by_cases hij : i = j
      · simp [hij]
      · simp [hij]
  · simp [getRoute, hn, fallbackRoute]
  · simp [getRoute, hn, fallbackRoute]
  · simp [getRoute, hn, fallbackRoute]
  · simp [getRoute, hn, fallbackRoute]

/-- C7 (witness for `fallback_results_semantics`) at two concrete meridian
points. -/
theorem fallback_results_semantics_witness :
    (getRoute geoLat [(⟨0, 0⟩ : Point), ⟨1000, 0⟩] RouteResp.failure).fallback = true ∧
    (getDistanceMatrix geoLat [(⟨0, 0⟩ : Point), ⟨1000, 0⟩] TableResp.failure).fallback
      = true :=
  ⟨(fallback_results_semantics geoLat [⟨0, 0⟩, ⟨1000, 0⟩] (by decide)).2.2.1,
   (fallback_results_semantics geoLat [⟨0, 0⟩, ⟨1000, 0⟩] (by decide)).1⟩

/-- The fold behind `minByDistance` returns its accumulator or a list
element. -/
theorem foldl_pickCloser_mem (ws : List Waypoint) (b : Waypoint) :
    ws.foldl pickCloser b = b ∨ ws.foldl pickCloser b ∈ ws := by
  induction ws generalizing b with
  | nil => exact Or.inl rfl
  | cons a rest ih =>
    rcases ih (pickCloser b a) with h | h
    · rw [List.foldl_cons, h]
      unfold pickCloser
      by_cases hd : a.distance < b.distance
      · exact Or.inr (by simp [hd])
      · exact Or.inl (by simp [hd])
    · exact Or.inr (List.mem_cons_of_mem _ h)

/-- The fold behind `minByDistance` is a lower bound for the accumulator and
all list elements. -/
theorem foldl_pickCloser_le (ws : List Waypoint) (b : Waypoint) :
    (ws.foldl pickCloser b).distance ≤ b.distance ∧
      ∀ x ∈ ws, (ws.foldl pickCloser b).distance ≤ x.distance := by
  induction ws generalizing b with
  | nil => exact ⟨le_refl _, by simp⟩
  | cons a rest ih =>
    obtain ⟨h1, h2⟩ := ih (pickCloser b a)
    have hpb : (pickCloser b a).distance ≤ b.distance := by
      unfold pickCloser
      by_cases hd : a.distance < b.distance
      · simpa [hd] using le_of_lt hd
      · simp [hd]
    have hpa : (pickCloser b a).distance ≤ a.distance := by
      unfold pickCloser
      by_cases hd : a.distance < b.distance
      · simp [hd]
      · simpa [hd] using not_lt.mp hd
    refine ⟨le_trans h1 hpb, ?_⟩
    intro x hx
    rcases List.mem_cons.mp hx with rfl | hx
    · exact le_trans h1 hpa
    · exact h2 x hx

/-- `minByDistance` returns a member of minimal distance. -/
theorem minByDistance_spec (l : List Waypoint) (w : Waypoint)
    (h : minByDistance l = some w) : w ∈ l ∧ ∀ x ∈ l, w.distance ≤ x.distance := by
  cases l with
  | nil => exact absurd h (by simp [minByDistance])
  | cons a rest =>
    have hw : rest.foldl pickCloser a = w := by
      simpa [minByDistance] using h
    obtain ⟨h1, h2⟩ := foldl_pickCloser_le rest a
    rw [hw] at h1 h2
    constructor
    · rcases foldl_pickCloser_mem rest a with hm | hm
      · rw [hw] at hm
        exact hm ▸ List.mem_cons_self _ _
      · rw [hw] at hm
        exact List.mem_cons_of_mem _ hm
    · intro x hx
      rcases List.mem_cons.mp hx with rfl | hx
      · exact h1
      · exact h2 x hx

/-- `minByDistance` returns `none` exactly on the empty list. -/
theorem minByDistance_eq_none (l : List Waypoint) :
    minByDistance l = none ↔ l = [] := by
  cases l with
  | nil => simp [minByDistance]
  | cons a rest => simp [minByDistance]

/-- C6 (counterexample): with `max_distance = 500` and two waypoints — a
small residential street ("akasya sokak") 10 m away and a non-residential
road ("koru geçidi") 1200 m away — the code's tier 2 searches within
`3 × max_distance` and picks the road at 1200 m, while the claim's tier 2
(within `max_distance`) is empty, so the claim's tier 3 would pick the
absolute nearest waypoint at 10 m. -/
theorem snap_tier2_radius_counterexample :
    snapSelect 500 [⟨⟨0, 0⟩, 10, "akasya sokak"⟩, ⟨⟨1, 1⟩, 1200, "koru geçidi"⟩] =
      some ⟨⟨1, 1⟩, 1200, "koru geçidi"⟩ ∧
    snapSelectSpec 500 [⟨⟨0, 0⟩, 10, "akasya sokak"⟩, ⟨⟨1, 1⟩, 1200, "koru geçidi"⟩] =
      some ⟨⟨0, 0⟩, 10, "akasya sokak"⟩ ∧
    snapSelect 500 [⟨⟨0, 0⟩, 10, "akasya sokak"⟩, ⟨⟨1, 1⟩, 1200, "koru geçidi"⟩] ≠
      snapSelectSpec 500 [⟨⟨0, 0⟩, 10, "akasya sokak"⟩, ⟨⟨1, 1⟩, 1200, "koru geçidi"⟩] := by
  have hma : isMainRoad "akasya sokak" = false := by decide
  have hmb : isMainRoad "koru geçidi" = false := by decide
  have hsa : isSmallStreet "akasya sokak" = true := by decide
  have hsb : isSmallStreet "koru geçidi" = false := by decide
  have h1 : snapSelect 500 [⟨⟨0, 0⟩, 10, "akasya sokak"⟩, ⟨⟨1, 1⟩, 1200, "koru geçidi"⟩] =
      some ⟨⟨1, 1⟩, 1200, "koru geçidi"⟩ := by
    norm_num [snapSelect, minByDistance, pickCloser, List.filter, hma, hmb, hsa, hsb]
  have h2 : snapSelectSpec 500 [⟨⟨0, 0⟩, 10, "akasya sokak"⟩, ⟨⟨1, 1⟩, 1200, "koru geçidi"⟩] =
      some ⟨⟨0, 0⟩, 10, "akasya sokak"⟩ := by
    norm_num [snapSelectSpec, minByDistance, pickCloser, List.filter, hma, hmb, hsa, hsb]
  refine ⟨h1, h2, ?_⟩
  rw [h1, h2]
  norm_num

/-- C6 (amended): for a nonempty waypoint list sorted by distance (as the
OSRM `nearest` service returns it), the snap selection picks, in order:
the nearest main-road waypoint within `3 × max_distance`; otherwise the
nearest non-small-street waypoint within `3 × max_distance` (not within
`max_distance` as claimed); otherwise the absolute nearest waypoint. -/
theorem snapSelect_tiers (maxD : ℚ) (w0 : Waypoint) (ws : List Waypoint)
    (hsort : List.Pairwise (fun a b : Waypoint => a.distance ≤ b.distance) (w0 :: ws)) :
    ∃ w, snapSelect maxD (w0 :: ws) = some w ∧
      (((w0 :: ws).filter (fun x => isMainRoad x.name && x.distance ≤ maxD * 3) ≠ [] ∧
        w ∈ (w0 :: ws).filter (fun x => isMainRoad x.name && x.distance ≤ maxD * 3) ∧
        ∀ x ∈ (w0 :: ws).filter (fun x => isMainRoad x.name && x.distance ≤ maxD * 3),
          w.distance ≤ x.distance) ∨
      ((w0 :: ws).filter (fun x => isMainRoad x.name && x.distance ≤ maxD * 3) = [] ∧
        (w0 :: ws).filter (fun x => !isSmallStreet x.name && x.distance ≤ maxD * 3) ≠ [] ∧
        w ∈ (w0 :: ws).filter (fun x => !isSmallStreet x.name && x.distance ≤ maxD * 3) ∧
        ∀ x ∈ (w0 :: ws).filter (fun x => !isSmallStreet x.name && x.distance ≤ maxD * 3),
          w.distance ≤ x.distance) ∨
      ((w0 :: ws).filter (fun x => isMainRoad x.name && x.distance ≤ maxD * 3) = [] ∧
        (w0 :: ws).filter (fun x => !isSmallStreet x.name && x.distance ≤ maxD * 3) = [] ∧
        w = w0 ∧ ∀ x ∈ (w0 :: ws), w.distance ≤ x.distance)) := by
  have hle : ∀ x ∈ ws, w0.distance ≤ x.distance := (List.pairwise_cons.mp hsort).1
  cases hm : minByDistance ((w0 :: ws).filter
      (fun x => isMainRoad x.name && x.distance ≤ maxD * 3)) with
  | some w =>
    obtain ⟨hmem, hmin⟩ := minByDistance_spec _ _ hm
    refine ⟨w, ?_, Or.inl ⟨?_, hmem, hmin⟩⟩
    · simp only [snapSelect, hm]
    · intro hnil
      rw [hnil] at hmem
      exact absurd hmem (List.not_mem_nil _)
  | none =>
    have hmains : (w0 :: ws).filter (fun x => isMainRoad x.name && x.distance ≤ maxD * 3)
        = [] := (minByDistance_eq_none _).mp hm
    cases hn : minByDistance ((w0 :: ws).filter
        (fun x => !isSmallStreet x.name && x.distance ≤ maxD * 3)) with
    | some w =>
      obtain ⟨hmem, hmin⟩ := minByDistance_spec _ _ hn
      refine ⟨w, ?_, Or.inr (Or.inl ⟨hmains, ?_, hmem, hmin⟩)⟩
      · simp only [snapSelect, hm, hn]
      · intro hnil
        rw [hnil] at hmem
        exact absurd hmem (List.not_mem_nil _)
    | none =>
      have hsmall : (w0 :: ws).filter
          (fun x => !isSmallStreet x.name && x.distance ≤ maxD * 3) = [] :=
        (minByDistance_eq_none _).mp hn
      have hmin0 : ∀ x ∈ (w0 :: ws), w0.distance ≤ x.distance := by
        intro x hx
        rcases List.mem_cons.mp hx with rfl | hx
        · exact le_refl _
        · exact hle x hx
      by_cases hw0 : w0.distance ≤ maxD
      · refine ⟨w0, ?_, Or.inr (Or.inr ⟨hmains, hsmall, rfl, hmin0⟩)⟩
        have hfind : (w0 :: ws).find? (fun w => w.distance ≤ maxD) = some w0 := by
          rw [List.find?_cons_of_pos]
          simpa using hw0
        simp only [snapSelect, hm, hn, hfind]
      · refine ⟨w0, ?_, Or.inr (Or.inr ⟨hmains, hsmall, rfl, hmin0⟩)⟩
        have hfind : (w0 :: ws).find? (fun w => w.distance ≤ maxD) = none := by
          rw [List.find?_eq_none]
          intro x hx
          have := hmin0 x hx
          simp only [decide_eq_true_eq]
          intro hxle
          exact hw0 (le_trans this hxle)
        simp only [snapSelect, hm, hn, hfind]

/-- C6 (witness for `snapSelect_tiers`) at a concrete sorted two-waypoint
list: the main road at 100 m is selected. -/
theorem snapSelect_tiers_witness :
    ∃ w, snapSelect 500 [⟨⟨0, 0⟩, 100, "atatürk caddesi"⟩, ⟨⟨1, 1⟩, 300, "akasya sokak"⟩]
      = some w :=
  match snapSelect_tiers 500 ⟨⟨0, 0⟩, 100, "atatürk caddesi"⟩ [⟨⟨1, 1⟩, 300, "akasya sokak"⟩]
    (by decide) with
  | ⟨w, hw, _⟩ => ⟨w, hw⟩

/-- C3 (counterexample): in `hardCapInstance` the single-vehicle assignment
`[[1]]` serves every customer within capacity (demand 1 ≤ capacity 10), yet
*no* assignment at all is admissible: the `Time` dimension of
`CVRPSolver.solve` hard-caps every route at `max_route_duration * 3`, and
the only covering route lasts 800 s > 300 s.  So a route whose duration
exceeds `T_max` is not always admissible, and the solver can return
`no_solution` even though vehicle capacity suffices. -/
theorem cvrp_hard_time_cap_counterexample :
    (([[1]] : List (List ℕ)).length = hardCapInstance.capacities.length ∧
     ([[1]] : List (List ℕ)).flatten.Perm (customers hardCapInstance) ∧
     (∀ p ∈ ([[1]] : List (List ℕ)).zip hardCapInstance.capacities,
        routeLoad hardCapInstance p.1 ≤ p.2)) ∧
    (∀ a : List (List ℕ), ¬ feasibleAssignment hardCapInstance a) := by
  refine ⟨⟨by decide, by decide, by decide⟩, ?_⟩
  rintro a ⟨hlen, hperm, _, _, hdur⟩
  have hcap : hardCapInstance.capacities.length = 1 := by decide
  rw [hcap] at hlen
  obtain ⟨r, rfl⟩ : ∃ r, a = [r] := by
    cases a with
    | nil => simp at hlen
    | cons r rest =>
      cases rest with
      | nil => exact ⟨r, rfl⟩
      | cons x xs => simp at hlen
  have hcust : customers hardCapInstance = [1] := by decide
  rw [hcust] at hperm
  have hr : r = [1] := by
    have := List.perm_singleton.mp (by simpa using hperm)
    exact this
  subst hr
  have h800 : routeDuration hardCapInstance [1] = 800 := by decide
  have h300 : (3 : ℤ) * hardCapInstance.maxRouteDuration = 300 := by decide
  have := hdur [1] (List.mem_singleton.mpr rfl)
  rw [h800, h300] at this
  omega

/-- C3 (amended): the duration bound is soft only within a hard cap of
`3 × T_max`: every admissible route obeys `duration ≤ 3 × T_max`; a route
within `T_max` pays no penalty; a route over `T_max` pays exactly
10 000 per second over; and over-duration assignments inside the band
`(T_max, 3 × T_max]` are admissible, as `softBandInstance` shows. -/
theorem cvrp_soft_bound_within_hard_cap :
    (∀ inst a, feasibleAssignment inst a →
      ∀ r ∈ a, routeDuration inst r ≤ 3 * inst.maxRouteDuration) ∧
    (∀ inst r, routeDuration inst r ≤ inst.maxRouteDuration →
      softTimePenalty inst r = 0) ∧
    (∀ inst r, inst.maxRouteDuration ≤ routeDuration inst r →
      softTimePenalty inst r = 10000 * (routeDuration inst r - inst.maxRouteDuration)) ∧
    feasibleAssignment softBandInstance [[1]] ∧
    softBandInstance.maxRouteDuration < routeDuration softBandInstance [1] := by
  refine ⟨?_, ?_, ?_, by decide, by decide⟩
  · rintro inst a ⟨_, _, _, _, hdur⟩ r hr
    exact hdur r hr
  · intro inst r h
    unfold softTimePenalty
    have hle : routeDuration inst r - inst.maxRouteDuration ≤ 0 := by omega
    rw [max_eq_left hle]
    ring
  · intro inst r h
    unfold softTimePenalty
    have hge : 0 ≤ routeDuration inst r - inst.maxRouteDuration := by omega
    rw [max_eq_right hge]

/-- C3 (witness for `cvrp_soft_bound_within_hard_cap`): the soft-band route
of `softBandInstance` obeys the hard cap and pays the linear penalty. -/
theorem cvrp_soft_bound_within_hard_cap_witness :
    routeDuration softBandInstance [1] ≤ 3 * softBandInstance.maxRouteDuration ∧
    softTimePenalty softBandInstance [1] =
      10000 * (routeDuration softBandInstance [1] - softBandInstance.maxRouteDuration) :=
  ⟨cvrp_soft_bound_within_hard_cap.1 softBandInstance [[1]]
      cvrp_soft_bound_within_hard_cap.2.2.2.1 [1] (by decide),
   cvrp_soft_bound_within_hard_cap.2.2.1 softBandInstance [1] (by decide)⟩

/-- If every one of the `fuel` attempts fails, the retry loop returns the
last failed outcome with the fleet escalated `fuel` times. -/
theorem retryLoop_all_fail (solve : ℕ × ℕ → SolveOutcome) (prio : String) :
    ∀ (fuel : ℕ) (n0 : ℕ × ℕ), 0 < fuel →
    (∀ k < fuel, solveAcceptable (solve ((escalateFleet prio)^[k] n0)) = false) →
    retryLoop solve prio fuel n0 =
      (solve ((escalateFleet prio)^[fuel - 1] n0), (escalateFleet prio)^[fuel] n0) := by
  intro fuel
  induction fuel with
  | zero => intro n0 h; omega
  | succ f ih =>
    intro n0 _ hfail
    have h0 : solveAcceptable (solve n0) = false := by
      simpa using hfail 0 (Nat.succ_pos f)
    by_cases hf : f = 0
    · subst hf
      simp [retryLoop, h0]
    · have hrec := ih (escalateFleet prio n0) (Nat.pos_of_ne_zero hf) ?_
      · simp only [retryLoop, h0, Bool.false_eq_true, if_false, hf]
        rw [hrec]
        have h1 : (escalateFleet prio)^[f - 1] (escalateFleet prio n0) =
            (escalateFleet prio)^[f] n0 := by
          rw [← Function.iterate_succ_apply]
          congr 1
          omega
        have h2 : (escalateFleet prio)^[f] (escalateFleet prio n0) =
            (escalateFleet prio)^[f + 1] n0 := by
          rw [← Function.iterate_succ_apply]
        rw [h1, h2]
        simp
      · intro k hk
        have := hfail (k + 1) (by omega)
        rwa [Function.iterate_succ_apply] at this

/-- If the first success is at attempt `j` (< fuel), the retry loop returns
that outcome with the fleet escalated `j` times. -/
theorem retryLoop_first_success (solve : ℕ × ℕ → SolveOutcome) (prio : String) :
    ∀ (fuel j : ℕ) (n0 : ℕ × ℕ), j < fuel →
    (∀ k < j, solveAcceptable (solve ((escalateFleet prio)^[k] n0)) = false) →
    solveAcceptable (solve ((escalateFleet prio)^[j] n0)) = true →
    retryLoop solve prio fuel n0 =
      (solve ((escalateFleet prio)^[j] n0), (escalateFleet prio)^[j] n0) := by
  intro fuel
  induction fuel with
  | zero => intro j n0 h; omega
  | succ f ih =>
    intro j n0 hj hfail hok
    cases j with
    | zero =>
      simp only [Function.iterate_zero, id] at hok
      simp [retryLoop, hok]
    | succ j' =>
      have h0 : solveAcceptable (solve n0) = false := by
        simpa using hfail 0 (Nat.succ_pos j')
      have hf : f ≠ 0 := by omega
      have hrec := ih j' (escalateFleet prio n0) (by omega) ?_ ?_
      · simp only [retryLoop, h0, Bool.false_eq_true, if_false, hf]
        rw [hrec]
        rw [← Function.iterate_succ_apply]
      · intro k hk
        have := hfail (k + 1) (by omega)
        rwa [Function.iterate_succ_apply] at this
      · rwa [Function.iterate_succ_apply] at hok

/-- C4: the plan-creation retry loop — the enlargement rule is `"small"` +2
small, `"large"` +2 large, `"auto"` +1 of each; when all 5 solver attempts
(on the successively enlarged fleets) return `no_solution`/zero vehicles,
plan creation fails with the user-visible time-constraint error and nothing
is appended to the plan table; when attempt `j < 5` is the first acceptable
one, the plan is persisted and the solver result of attempt `j` is used. -/
theorem plan_retry_behaviour :
    (∀ a b : ℕ, escalateFleet "small" (a, b) = (a + 2, b) ∧
      escalateFleet "large" (a, b) = (a, b + 2) ∧
      escalateFleet "auto" (a, b) = (a + 1, b + 1)) ∧
    (∀ (solve : ℕ × ℕ → SolveOutcome) (prio : String) (n0 : ℕ × ℕ)
        (plans : List String) (row : String),
      (∀ k < 5, solveAcceptable (solve ((escalateFleet prio)^[k] n0)) = false) →
      createPlanPersist plans row solve prio n0 = Except.error timeInfeasibleError) ∧
    (∀ (solve : ℕ × ℕ → SolveOutcome) (prio : String) (n0 : ℕ × ℕ)
        (plans : List String) (row : String) (j : ℕ), j < 5 →
      (∀ k < j, solveAcceptable (solve ((escalateFleet prio)^[k] n0)) = false) →
      solveAcceptable (solve ((escalateFleet prio)^[j] n0)) = true →
      createPlanPersist plans row solve prio n0 = Except.ok (plans ++ [row]) ∧
      solveWithRetry solve prio n0 =
        Except.ok (solve ((escalateFleet prio)^[j] n0), (escalateFleet prio)^[j] n0)) := by
  refine ⟨?_, ?_, ?_⟩
  · intro a b
    refine ⟨?_, ?_, ?_⟩ <;> simp [escalateFleet]
  · intro solve prio n0 plans row hfail
    have hloop := retryLoop_all_fail solve prio 5 n0 (by omega) hfail
    have hlast : solveAcceptable (solve ((escalateFleet prio)^[5 - 1] n0)) = false :=
      hfail 4 (by omega)
    unfold createPlanPersist solveWithRetry
    rw [hloop]
    simp only [hlast, Bool.false_eq_true, if_false]
  · intro solve prio n0 plans row j hj hfail hok
    have hloop := retryLoop_first_success solve prio 5 j n0 hj hfail hok
    unfold createPlanPersist solveWithRetry
    rw [hloop]
    simp [hok]

/-- C4 (witness for `plan_retry_behaviour`): an always-failing solver makes
plan creation fail with the time-constraint error; an immediately succeeding
solver persists the plan. -/
theorem plan_retry_behaviour_witness :
    createPlanPersist [] "plan" (fun _ => ⟨"NO_SOLUTION", 0⟩) "auto" (5, 5) =
      Except.error timeInfeasibleError ∧
    createPlanPersist [] "plan" (fun _ => ⟨"FEASIBLE", 2⟩) "auto" (5, 5) =
      Except.ok ([] ++ ["plan"]) ∧
    escalateFleet "small" (5, 5) = (7, 5) :=
  ⟨plan_retry_behaviour.2.1 _ "auto" (5, 5) [] "plan" (fun _ _ => by decide),
   (plan_retry_behaviour.2.2 _ "auto" (5, 5) [] "plan" 0 (by omega)
      (fun k hk => absurd hk (by omega)) (by decide)).1,
   by
    have h := (plan_retry_behaviour.1 5 5).1
    simpa using h⟩

/-- Grouping by any boolean relation partitions the index list: the
concatenation of the groups is a permutation of the input. -/
theorem groupIndices_flatten_perm_aux (sameB : ℕ → ℕ → Bool) :
    ∀ (n : ℕ) (l : List ℕ), l.length ≤ n → (groupIndices sameB l).flatten.Perm l := by
  intro n
  induction n with
  | zero =>
    intro l hl
    cases l with
    | nil => simp [groupIndices]
    | cons i rest => simp at hl
  | succ n ih =>
    intro l hl
    cases l with
    | nil => simp [groupIndices]
    | cons i rest =>
      rw [groupIndices]
      simp only [List.flatten_cons, List.cons_append]
      refine List.Perm.cons i ?_
      refine List.Perm.trans (List.Perm.append_left _ (ih _ ?_))
        (List.filter_append_perm _ rest)
      exact le_trans (List.length_filter_le _ _) (Nat.le_of_succ_le_succ hl)

/-- `groupIndices` flattens to a permutation of its input. -/
theorem groupIndices_flatten_perm (sameB : ℕ → ℕ → Bool) (l : List ℕ) :
    (groupIndices sameB l).flatten.Perm l :=
  groupIndices_flatten_perm_aux sameB l.length l le_rfl

/-- The member-id lists of the DBSCAN stops are the index groups mapped
through the id list. -/
theorem mkDbscanStops_map_ids (geo : Geo) (pts : List Point) (ids : List ℕ) :
    ∀ (gs : List (List ℕ)) (k : ℤ),
    (mkDbscanStops geo pts ids gs k).map ClusterStop.employee_ids =
      gs.map (fun mems => mems.map (fun i => ids.getD i 0)) := by
  intro gs
  induction gs with
  | nil => intro k; rfl
  | cons g gs ih =>
    intro k
    simp only [mkDbscanStops, List.map_cons, ih]
    rfl

/-- Indexing the whole range through `getD` reproduces the list. -/
theorem map_range_getD {α : Type} (l : List α) (d : α) :
    (List.range l.length).map (fun i => l.getD i d) = l := by
  apply List.ext_getElem
  · simp
  · intro i h1 h2
    simp only [List.getElem_map, List.getElem_range]
    rw [List.getD_eq_getElem?_getD, List.getElem?_eq_getElem h2]
    rfl

/-- Flatten of a mapped map. -/
theorem flatten_map_map {α β : Type} (g : α → β) (L : List (List α)) :
    (L.map (fun l => l.map g)).flatten = L.flatten.map g := by
  induction L with
  | nil => rfl
  | cons a L ih => simp only [List.map_cons, List.flatten_cons, List.map_append, ih]

/-- `cluster_with_dbscan` partitions the ids: the member ids of the stops
together with the unclustered ids are a permutation of the input ids. -/
theorem clusterWithDbscan_partition (geo : Geo) (eps : ℚ) (pts : List Point)
    (ids : List ℕ) (hlen : ids.length = pts.length) :
    (((clusterWithDbscan geo eps pts ids).stops.map ClusterStop.employee_ids).flatten ++
      (clusterWithDbscan geo eps pts ids).unclustered.map UnclusteredEmp.employee_id).Perm
      ids := by
  unfold clusterWithDbscan
  simp only [mkDbscanStops_map_ids, flatten_map_map, List.map_map]
  have hcomp : (UnclusteredEmp.employee_id ∘ fun i =>
      (⟨ids.getD i 0, pts.getD i ⟨0, 0⟩⟩ : UnclusteredEmp)) = fun i => ids.getD i 0 := rfl
  rw [hcomp, ← List.map_append]
  have hperm : ((dbscanIndexGroups geo pts eps).flatten ++
      (List.range pts.length).filter (fun i => isNoiseB geo pts eps i)).Perm
      (List.range pts.length) := by
    refine List.Perm.trans
      (List.Perm.append_right _ (groupIndices_flatten_perm _ _)) ?_
    have h := List.filter_append_perm (fun i => !isNoiseB geo pts eps i)
      (List.range pts.length)
    simpa [Bool.not_not] using h
  have h2 : (List.range pts.length).map (fun i => ids.getD i 0) = ids := by
    rw [← hlen]
    exact map_range_getD ids 0
  have h3 := hperm.map (fun i => ids.getD i 0)
  rwa [h2] at h3

/-- Attaching an unclustered employee to the first in-cap stop adds exactly
that employee's id to the flattened membership. -/
theorem attachToStop_flatten_perm (geo : Geo) (W : ℚ) (emp : UnclusteredEmp) :
    ∀ (stops st : List ClusterStop), attachToStop geo W emp stops = some st →
    ((st.map ClusterStop.employee_ids).flatten).Perm
      (emp.employee_id :: (stops.map ClusterStop.employee_ids).flatten) := by
  intro stops
  induction stops with
  | nil => intro st h; simp [attachToStop] at h
  | cons s rest ih =>
    intro st h
    rw [attachToStop] at h
    by_cases hc : geo emp.location s.location ≤ W
    · rw [if_pos hc] at h
      cases h
      simp only [List.map_cons, List.flatten_cons, attachEmp]
      rw [List.append_assoc]
      exact List.perm_middle
    · rw [if_neg hc] at h
      cases hrec : attachToStop geo W emp rest with
      | none => rw [hrec] at h; simp at h
      | some st' =>
        rw [hrec] at h
        simp at h
        subst h
        simp only [List.map_cons, List.flatten_cons]
        exact List.Perm.trans (List.Perm.append_left _ (ih st' hrec)) List.perm_middle

/-- The refinement pass preserves the multiset of ids split between stops and
the still-unclustered residual. -/
theorem refinePass_flatten_perm (geo : Geo) (W : ℚ) :
    ∀ (u : List UnclusteredEmp) (stops : List ClusterStop),
    (((refinePass geo W stops u).1.map ClusterStop.employee_ids).flatten ++
      (refinePass geo W stops u).2.map UnclusteredEmp.employee_id).Perm
      ((stops.map ClusterStop.employee_ids).flatten ++
        u.map UnclusteredEmp.employee_id) := by
  intro u
  induction u with
  | nil => intro stops; simp [refinePass]
  | cons e rest ih =>
    intro stops
    cases hat : attachToStop geo W e stops with
    | some st =>
      rw [refinePass, hat]
      refine List.Perm.trans (ih st) ?_
      refine List.Perm.trans
        (List.Perm.append_right _ (attachToStop_flatten_perm geo W e stops st hat)) ?_
      exact List.perm_middle.symm
    | none =>
      rw [refinePass, hat]
      refine List.Perm.trans List.perm_middle ?_
      exact (List.Perm.cons _ (ih stops)).trans List.perm_middle.symm

/-- Individual stops carry exactly the remaining unclustered ids. -/
theorem individualStops_flatten :
    ∀ (u : List UnclusteredEmp) (k : ℕ),
    ((individualStops u k).map ClusterStop.employee_ids).flatten =
      u.map UnclusteredEmp.employee_id := by
  intro u
  induction u with
  | nil => intro k; rfl
  | cons e rest ih => intro k; simp [individualStops, ih]

/-- C1: `cluster_employees` partitions the employees: the member ids of the
output stops are a permutation (multiset equality) of the input ids, the
residual is empty, and for duplicate-free input ids the membership lists are
pairwise disjoint and individually duplicate-free. -/
theorem cluster_employees_partition (geo : Geo) (data : List EmpData) (W : ℚ) :
    ((cluster_employees geo data W).stops.map ClusterStop.employee_ids).flatten.Perm
      (data.map EmpData.id) ∧
    (cluster_employees geo data W).unclustered = [] ∧
    ((data.map EmpData.id).Nodup →
      ((cluster_employees geo data W).stops.map ClusterStop.employee_ids).Pairwise
        List.Disjoint ∧
      ∀ s ∈ (cluster_employees geo data W).stops, s.employee_ids.Nodup) := by
  have hlen : (data.map EmpData.id).length =
      (data.map fun e => Point.mk e.lat e.lng).length := by simp
  have hbase := clusterWithDbscan_partition geo W
    (data.map fun e => Point.mk e.lat e.lng) (data.map EmpData.id) hlen
  have hmain :
      ((cluster_employees geo data W).stops.map ClusterStop.employee_ids).flatten.Perm
        (data.map EmpData.id) ∧
      (cluster_employees geo data W).unclustered = [] := by
    unfold cluster_employees
    by_cases hu : (clusterWithDbscan geo W (data.map fun e => Point.mk e.lat e.lng)
        (data.map EmpData.id)).unclustered.isEmpty
    · simp only [hu, if_true]
      have hunil := List.isEmpty_iff.mp hu
      rw [hunil] at hbase
      simp only [List.map_nil, List.append_nil] at hbase
      exact ⟨hbase, hunil⟩
    · simp only [hu, Bool.false_eq_true, if_false]
      refine ⟨?_, rfl⟩
      unfold refineClusters
      simp only [List.map_append, List.flatten_append, individualStops_flatten]
      exact List.Perm.trans (refinePass_flatten_perm geo W _ _) hbase
  refine ⟨hmain.1, hmain.2, fun hnd => ?_⟩
  have hnodup : ((cluster_employees geo data W).stops.map
      ClusterStop.employee_ids).flatten.Nodup := (hmain.1.nodup_iff).mpr hnd
  obtain ⟨h1, h2⟩ := List.nodup_flatten.mp hnodup
  exact ⟨h2, fun s hs => h1 _ (List.mem_map_of_mem _ hs)⟩

/-- C1 (witness for `cluster_employees_partition`): the four-employee chain
with duplicate-free ids. -/
theorem cluster_employees_partition_witness :
    ((cluster_employees geoLat chain4 200).stops.map ClusterStop.employee_ids).flatten.Perm
      (chain4.map EmpData.id) ∧
    ((cluster_employees geoLat chain4 200).stops.map ClusterStop.employee_ids).Pairwise
      List.Disjoint :=
  ⟨(cluster_employees_partition geoLat chain4 200).1,
   ((cluster_employees_partition geoLat chain4 200).2.2 (by decide)).1⟩

/-- C2 (counterexample): four employees chained 150 m apart on one meridian
(`chain4`, cap `W = 200`).  DBSCAN with ε = `W` and `min_samples = 2` links
them into one cluster; the centroid sits at 225 m, so the stop records
`max_distance_to_centroid = 225 > W` — the code computes the distance but
never enforces the cap for density clusters. -/
theorem walking_bound_counterexample :
    (cluster_employees geoLat chain4 200).stops =
      [⟨0, ⟨225, 0⟩, 4, [1, 2, 3, 4], 225, false⟩] ∧
    ∃ s ∈ (cluster_employees geoLat chain4 200).stops,
      s.is_individual_stop = false ∧ 200 < s.max_distance_to_centroid := by
  have hrange : List.range 4 = [0, 1, 2, 3] := rfl
  have hstops : (cluster_employees geoLat chain4 200).stops =
      [⟨0, ⟨225, 0⟩, 4, [1, 2, 3, 4], 225, false⟩] := by
    norm_num [cluster_employees, clusterWithDbscan, dbscanIndexGroups, groupIndices,
      mkDbscanStops, mkDbscanStop, centroidOf, maxDistToCentroid, isNoiseB, reachB,
      adjacentB, geoLat, chain4, hrange, List.filter, List.any, List.getD]
  refine ⟨hstops, ⟨0, ⟨225, 0⟩, 4, [1, 2, 3, 4], 225, false⟩, ?_, rfl, by norm_num⟩
  rw [hstops]
  exact List.mem_singleton.mpr rfl

/-- A fold of `max` dominates its start and every folded value. -/
theorem foldl_max_bound (f : ℕ → ℚ) :
    ∀ (l : List ℕ) (b : ℚ),
    b ≤ l.foldl (fun m i => max m (f i)) b ∧
    ∀ i ∈ l, f i ≤ l.foldl (fun m i => max m (f i)) b := by
  intro l
  induction l with
  | nil => intro b; exact ⟨le_refl _, by simp⟩
  | cons j rest ih =>
    intro b
    obtain ⟨h1, h2⟩ := ih (max b (f j))
    refine ⟨le_trans (le_max_left _ _) h1, ?_⟩
    intro i hi
    rcases List.mem_cons.mp hi with rfl | hi
    · exact le_trans (le_max_right _ _) h1
    · exact h2 i hi

/-- The recorded `max_distance_to_centroid` dominates every member's
centroid distance. -/
theorem maxDistToCentroid_ub (geo : Geo) (pts : List Point) (c : Point) (mems : List ℕ) :
    ∀ i ∈ mems, geo c (pts.getD i ⟨0, 0⟩) ≤ maxDistToCentroid geo pts c mems :=
  (foldl_max_bound (fun i => geo c (pts.getD i ⟨0, 0⟩)) mems 0).2

/-- `attachToStop` attaches to the *first* stop within the cap, replacing it
by the updated stop whose recorded max also covers the attach distance. -/
theorem attachToStop_spec (geo : Geo) (W : ℚ) (emp : UnclusteredEmp) :
    ∀ (stops st : List ClusterStop), attachToStop geo W emp stops = some st →
    ∃ k, k < stops.length ∧
      geo emp.location ((stops.getD k dummyStop).location) ≤ W ∧
      (∀ j < k, ¬ geo emp.location ((stops.getD j dummyStop).location) ≤ W) ∧
      st = stops.take k ++
        attachEmp emp (geo emp.location ((stops.getD k dummyStop).location))
          (stops.getD k dummyStop) :: stops.drop (k + 1) := by
  intro stops
  induction stops with
  | nil => intro st h; simp [attachToStop] at h
  | cons s rest ih =>
    intro st h
    rw [attachToStop] at h
    by_cases hc : geo emp.location s.location ≤ W
    · rw [if_pos hc] at h
      cases h
      exact ⟨0, Nat.succ_pos _, hc, fun j hj => absurd hj (Nat.not_lt_zero j), rfl⟩
    · rw [if_neg hc] at h
      cases hrec : attachToStop geo W emp rest with
      | none => rw [hrec] at h; simp at h
      | some st' =>
        rw [hrec] at h
        simp at h
        subst h
        obtain ⟨k, hk, hle, hfirst, hshape⟩ := ih st' hrec
        refine ⟨k + 1, by simpa using Nat.succ_lt_succ hk, ?_, ?_, ?_⟩
        · simpa [List.getD_cons_succ] using hle
        · intro j hj
          cases j with
          | zero => simpa [List.getD_cons_zero] using hc
          | succ j' =>
            simpa [List.getD_cons_succ] using hfirst j' (Nat.lt_of_succ_lt_succ hj)
        · simp only [List.getD_cons_succ, List.take_succ_cons, List.drop_succ_cons,
            List.cons_append]
          exact congrArg _ hshape

/-- Every individual stop records walk 0, the individual flag, and a single
member. -/
theorem individualStops_members :
    ∀ (u : List UnclusteredEmp) (k : ℕ) (s : ClusterStop), s ∈ individualStops u k →
      s.max_distance_to_centroid = 0 ∧ s.is_individual_stop = true ∧
        s.employee_count = 1 := by
  intro u
  induction u with
  | nil => intro k s h; simp [individualStops] at h
  | cons e rest ih =>
    intro k s h
    rw [individualStops] at h
    rcases List.mem_cons.mp h with rfl | h
    · exact ⟨rfl, rfl, rfl⟩
    · exact ih (k + 1) s h

/-- C2 (amended): the recorded `max_distance_to_centroid` dominates every
member's geodesic distance to the centroid; residual refinement attaches an
unclustered employee only to the *first* stop within `W`, replacing it by a
stop whose recorded max also covers the attach distance; and individual
stops record walk 0 with the individual flag.  The cap `≤ W` itself is not
enforced for density clusters (`walking_bound_counterexample`). -/
theorem walking_bound_amended :
    (∀ (geo : Geo) (pts : List Point) (c : Point) (mems : List ℕ),
      ∀ i ∈ mems, geo c (pts.getD i ⟨0, 0⟩) ≤ maxDistToCentroid geo pts c mems) ∧
    (∀ (geo : Geo) (W : ℚ) (emp : UnclusteredEmp) (stops st : List ClusterStop),
      attachToStop geo W emp stops = some st →
      ∃ k, k < stops.length ∧
        geo emp.location ((stops.getD k dummyStop).location) ≤ W ∧
        (∀ j < k, ¬ geo emp.location ((stops.getD j dummyStop).location) ≤ W) ∧
        st = stops.take k ++
          attachEmp emp (geo emp.location ((stops.getD k dummyStop).location))
            (stops.getD k dummyStop) :: stops.drop (k + 1)) ∧
    (∀ (u : List UnclusteredEmp) (k : ℕ) (s : ClusterStop), s ∈ individualStops u k →
      s.max_distance_to_centroid = 0 ∧ s.is_individual_stop = true ∧
        s.employee_count = 1) :=
  ⟨maxDistToCentroid_ub, attachToStop_spec, individualStops_members⟩

/-- C2 (witness for `walking_bound_amended`): concrete instances of the three
clauses. -/
theorem walking_bound_amended_witness :
    geoLat ⟨0, 0⟩ (([(⟨5, 0⟩ : Point)]).getD 0 ⟨0, 0⟩) ≤
      maxDistToCentroid geoLat [⟨5, 0⟩] ⟨0, 0⟩ [0] ∧
    (∃ k, k < ([dummyStop] : List ClusterStop).length ∧
      geoLat (UnclusteredEmp.mk 9 ⟨0, 0⟩).location
        ((([dummyStop] : List ClusterStop).getD k dummyStop).location) ≤ 200 ∧
      (∀ j < k, ¬ geoLat (UnclusteredEmp.mk 9 ⟨0, 0⟩).location
        ((([dummyStop] : List ClusterStop).getD j dummyStop).location) ≤ 200) ∧
      [(⟨0, ⟨0, 0⟩, 1, [9], 0, false⟩ : ClusterStop)] =
        ([dummyStop] : List ClusterStop).take k ++
        attachEmp ⟨9, ⟨0, 0⟩⟩
          (geoLat (UnclusteredEmp.mk 9 ⟨0, 0⟩).location
            ((([dummyStop] : List ClusterStop).getD k dummyStop).location))
          (([dummyStop] : List ClusterStop).getD k dummyStop) ::
          ([dummyStop] : List ClusterStop).drop (k + 1)) ∧
    ((⟨1000, ⟨1, 2⟩, 1, [7], 0, true⟩ : ClusterStop).max_distance_to_centroid = 0 ∧
      (⟨1000, ⟨1, 2⟩, 1, [7], 0, true⟩ : ClusterStop).is_individual_stop = true ∧
      (⟨1000, ⟨1, 2⟩, 1, [7], 0, true⟩ : ClusterStop).employee_count = 1) :=
  ⟨walking_bound_amended.1 geoLat [⟨5, 0⟩] ⟨0, 0⟩ [0] 0 (by decide),
   walking_bound_amended.2.1 geoLat 200 ⟨9, ⟨0, 0⟩⟩ [dummyStop]
     [⟨0, ⟨0, 0⟩, 1, [9], 0, false⟩]
     (by norm_num [attachToStop, attachEmp, dummyStop, geoLat]),
   walking_bound_amended.2.2 [⟨7, ⟨1, 2⟩⟩] 0 ⟨1000, ⟨1, 2⟩, 1, [7], 0, true⟩
     (by norm_num [individualStops])⟩

/-- C9: every preview endpoint is a pure read: on every path (lookup
failures, validation rejections, success) the returned database state equals
the input state — the route row, its stops, and the plan totals are
untouched; and on success the returned payload carries the stored old
distance/duration, engine-derived new values (traffic-scaled duration), and
diffs equal to new − old, with percents zero on a zero denominator. -/
theorem preview_operations_pure (db : DBState) (osrm : List Point → RouteResult)
    (geo : Geo) (simId routeId empId : ℕ) (ups : List StopUpdate) (firstIdx : ℤ) :
    (previewRouteUpdate db osrm simId routeId ups).2 = db ∧
    (previewRouteReorder db osrm simId routeId firstIdx).2 = db ∧
    (previewAddEmployee geo db osrm simId routeId empId).2 = db ∧
    (previewRemoveEmployee db osrm simId routeId empId).2 = db ∧
    (∀ a b c d : ℚ,
      (mkPreviewResp a b c d).old_distance = a ∧
      (mkPreviewResp a b c d).old_duration = b ∧
      (mkPreviewResp a b c d).new_distance = c ∧
      (mkPreviewResp a b c d).new_duration = d ∧
      (mkPreviewResp a b c d).distance_diff = c - a ∧
      (mkPreviewResp a b c d).duration_diff = d - b ∧
      (a = 0 → (mkPreviewResp a b c d).distance_diff_percent = 0) ∧
      (b = 0 → (mkPreviewResp a b c d).duration_diff_percent = 0)) ∧
    (∀ sim route, findSim db simId = some sim → findRoute db simId routeId = some route →
      (previewRouteUpdate db osrm simId routeId ups).1 =
        Except.ok (mkPreviewResp route.distance route.duration
          (osrm (editorRouteCoords sim.depot
            (applyStopLocationUpdates route.stops ups))).distance
          ((osrm (editorRouteCoords sim.depot
            (applyStopLocationUpdates route.stops ups))).duration *
            trafficFactor sim.traffic_mode))) := by
  refine ⟨?_, ?_, ?_, ?_, ?_, ?_⟩
  · unfold previewRouteUpdate
    cases findSim db simId with
    | none => rfl
    | some sim =>
      cases findRoute db simId routeId with
      | none => rfl
      | some route => rfl
  · unfold previewRouteReorder
    cases findSim db simId with
    | none => rfl
    | some sim =>
      cases findRoute db simId routeId with
      | none => rfl
      | some route =>
        dsimp only
        split
        · rfl
        · rfl
  · unfold previewAddEmployee
    cases findSim db simId with
    | none => rfl
    | some sim =>
      cases findRoute db simId routeId with
      | none => rfl
      | some route =>
        dsimp only
        split
        · rfl
        · split
          all_goals
            split
            · rfl
            · cases buildEmployeeStop geo db empId route.stops with
              | none => rfl
              | some r => rfl
  · unfold previewRemoveEmployee
    cases findSim db simId with
    | none => rfl
    | some sim =>
      cases findRoute db simId routeId with
      | none => rfl
      | some route =>
        dsimp only
        split
        · rfl
        · split
          · rfl
          · rfl
  · intro a b c d
    refine ⟨rfl, rfl, rfl, rfl, rfl, rfl, ?_, ?_⟩
    · intro ha
      simp [mkPreviewResp, ha]
    · intro hb
      simp [mkPreviewResp, hb]
  · intro sim route hsim hroute
    simp only [previewRouteUpdate, hsim, hroute]

/-- C9 (witness for `preview_operations_pure`): the sample database is
unchanged by a move-stop preview, and the preview payload is the engine
result against the stored row. -/
theorem preview_operations_pure_witness :
    (previewRouteUpdate sampleDB sampleOsrm 1 10 []).2 = sampleDB ∧
    (previewRouteUpdate sampleDB sampleOsrm 1 10 []).1 =
      Except.ok (mkPreviewResp 5000 600 7000 (700 * trafficFactor "none")) :=
  ⟨(preview_operations_pure sampleDB sampleOsrm geoLat 1 10 9 [] 0).1,
   (preview_operations_pure sampleDB sampleOsrm geoLat 1 10 9 [] 0).2.2.2.2.2
     sampleSim sampleRoute rfl rfl⟩

/-- One unfolding step of `bestStopAux` from an empty accumulator. -/
theorem bestStopAux_cons_none (geo : Geo) (p : Point) (s : StopJson)
    (rest : List StopJson) (i : ℕ) :
    bestStopAux geo p (s :: rest) i none =
      bestStopAux geo p rest (i + 1)
        (if geo p s.location ≤ 400 then some (i, geo p s.location) else none) := rfl

/-- One unfolding step of `bestStopAux` from a non-empty accumulator. -/
theorem bestStopAux_cons_some (geo : Geo) (p : Point) (s : StopJson)
    (rest : List StopJson) (i j : ℕ) (bd : ℚ) :
    bestStopAux geo p (s :: rest) i (some (j, bd)) =
      bestStopAux geo p rest (i + 1)
        (if geo p s.location < bd ∧ geo p s.location ≤ 400 then some (i, geo p s.location)
          else some (j, bd)) := rfl

/-- With a non-`none` accumulator the scan always returns a result. -/
theorem bestStopAux_some_isSome (geo : Geo) (p : Point) :
    ∀ (l : List StopJson) (i0 j0 : ℕ) (b0 : ℚ),
    ∃ k d, bestStopAux geo p l i0 (some (j0, b0)) = some (k, d) := by
  intro l
  induction l with
  | nil => intro i0 j0 b0; exact ⟨j0, b0, rfl⟩
  | cons s rest ih =>
    intro i0 j0 b0
    rw [bestStopAux_cons_some]
    by_cases hc : geo p s.location < b0 ∧ geo p s.location ≤ 400
    · rw [if_pos hc]
      exact ih (i0 + 1) i0 (geo p s.location)
    · rw [if_neg hc]
      exact ih (i0 + 1) j0 b0

/-- Invariant of the scan for a non-`none` accumulator within the cap: the
result is within the cap, no worse than the accumulator, a lower bound for
every in-cap stop of the remaining list, and is either the accumulator or an
actual stop of the remaining list. -/
theorem bestStopAux_acc_spec (geo : Geo) (p : Point) :
    ∀ (l : List StopJson) (i0 j0 : ℕ) (b0 : ℚ) (k : ℕ) (d : ℚ),
    b0 ≤ 400 →
    bestStopAux geo p l i0 (some (j0, b0)) = some (k, d) →
    d ≤ 400 ∧ d ≤ b0 ∧
    (∀ j, j < l.length → geo p ((l.getD j dummyStopJson).location) ≤ 400 →
      d ≤ geo p ((l.getD j dummyStopJson).location)) ∧
    ((k = j0 ∧ d = b0) ∨
      (i0 ≤ k ∧ k - i0 < l.length ∧
        d = geo p ((l.getD (k - i0) dummyStopJson).location))) := by
  intro l
  induction l with
  | nil =>
    intro i0 j0 b0 k d hb h
    simp only [bestStopAux, Option.some.injEq, Prod.mk.injEq] at h
    obtain ⟨rfl, rfl⟩ := h
    exact ⟨hb, le_refl _, fun j hj => absurd hj (Nat.not_lt_zero j), Or.inl ⟨rfl, rfl⟩⟩
  | cons s rest ih =>
    intro i0 j0 b0 k d hb h
    rw [bestStopAux_cons_some] at h
    by_cases hc : geo p s.location < b0 ∧ geo p s.location ≤ 400
    · rw [if_pos hc] at h
      obtain ⟨h400, hdd0, hall, hach⟩ := ih (i0 + 1) i0 (geo p s.location) k d hc.2 h
      refine ⟨h400, le_trans hdd0 (le_of_lt hc.1), ?_, ?_⟩
      · intro j hj hle
        cases j with
        | zero => exact hdd0
        | succ j' =>
          rw [List.getD_cons_succ] at hle ⊢
          exact hall j' (Nat.lt_of_succ_lt_succ hj) hle
      · rcases hach with ⟨rfl, rfl⟩ | ⟨h1, h2, h3⟩
        · exact Or.inr ⟨le_refl _, by simp, by simp⟩
        · refine Or.inr ⟨le_trans (Nat.le_succ _) h1, ?_, ?_⟩
          · have : k - i0 = (k - (i0 + 1)) + 1 := by omega
            rw [this]
            simpa using Nat.succ_lt_succ h2
          · have : k - i0 = (k - (i0 + 1)) + 1 := by omega
            rw [this, List.getD_cons_succ]
            exact h3
    · rw [if_neg hc] at h
      obtain ⟨h400, hdb, hall, hach⟩ := ih (i0 + 1) j0 b0 k d hb h
      refine ⟨h400, hdb, ?_, ?_⟩
      · intro j hj hle
        cases j with
        | zero =>
          have hb0le : b0 ≤ geo p s.location := by
            rcases not_and_or.mp hc with h' | h'
            · exact le_of_not_lt h'
            · exact absurd hle h'
          exact le_trans hdb hb0le
        | succ j' =>
          rw [List.getD_cons_succ] at hle ⊢
          exact hall j' (Nat.lt_of_succ_lt_succ hj) hle
      · rcases hach with hl | ⟨h1, h2, h3⟩
        · exact Or.inl hl
        · refine Or.inr ⟨le_trans (Nat.le_succ _) h1, ?_, ?_⟩
          · have : k - i0 = (k - (i0 + 1)) + 1 := by omega
            rw [this]
            simpa using Nat.succ_lt_succ h2
          · have : k - i0 = (k - (i0 + 1)) + 1 := by omega
            rw [this, List.getD_cons_succ]
            exact h3

/-- Specification of the full scan from an empty accumulator: a returned
choice is an in-cap stop of minimal distance. -/
theorem bestStopAux_none_spec (geo : Geo) (p : Point) :
    ∀ (l : List StopJson) (i0 k : ℕ) (d : ℚ),
    bestStopAux geo p l i0 none = some (k, d) →
    d ≤ 400 ∧
    (∀ j, j < l.length → geo p ((l.getD j dummyStopJson).location) ≤ 400 →
      d ≤ geo p ((l.getD j dummyStopJson).location)) ∧
    i0 ≤ k ∧ k - i0 < l.length ∧
    d = geo p ((l.getD (k - i0) dummyStopJson).location) := by
  intro l
  induction l with
  | nil => intro i0 k d h; simp [bestStopAux] at h
  | cons s rest ih =>
    intro i0 k d h
    rw [bestStopAux_cons_none] at h
    by_cases hc : geo p s.location ≤ 400
    · rw [if_pos hc] at h
      obtain ⟨h400, hdd0, hall, hach⟩ := bestStopAux_acc_spec geo p rest (i0 + 1) i0
        (geo p s.location) k d hc h
      refine ⟨h400, ?_, ?_, ?_, ?_⟩
      · intro j hj hle
        cases j with
        | zero => exact hdd0
        | succ j' =>
          rw [List.getD_cons_succ] at hle ⊢
          exact hall j' (Nat.lt_of_succ_lt_succ hj) hle
      · rcases hach with ⟨rfl, _⟩ | ⟨h1, _, _⟩
        · exact le_refl _
        · exact le_trans (Nat.le_succ _) h1
      · rcases hach with ⟨rfl, _⟩ | ⟨h1, h2, _⟩
        · simp
        · have : k - i0 = (k - (i0 + 1)) + 1 := by omega
          rw [this]
          simpa using Nat.succ_lt_succ h2
      · rcases hach with ⟨rfl, rfl⟩ | ⟨h1, h2, h3⟩
        · simp
        · have : k - i0 = (k - (i0 + 1)) + 1 := by omega
          rw [this, List.getD_cons_succ]
          exact h3
    · rw [if_neg hc] at h
      obtain ⟨h400, hall, h1, h2, h3⟩ := ih (i0 + 1) k d h
      refine ⟨h400, ?_, le_trans (Nat.le_succ _) h1, ?_, ?_⟩
      · intro j hj hle
        cases j with
        | zero => exact absurd hle hc
        | succ j' =>
          rw [List.getD_cons_succ] at hle ⊢
          exact hall j' (Nat.lt_of_succ_lt_succ hj) hle
      · have : k - i0 = (k - (i0 + 1)) + 1 := by omega
        rw [this]
        simpa using Nat.succ_lt_succ h2
      · have : k - i0 = (k - (i0 + 1)) + 1 := by omega
        rw [this, List.getD_cons_succ]
        exact h3

/-- The scan returns `none` when every stop is out of cap. -/
theorem bestStopAux_none_of_far (geo : Geo) (p : Point) :
    ∀ (l : List StopJson) (i0 : ℕ),
    (∀ s ∈ l, ¬ geo p s.location ≤ 400) → bestStopAux geo p l i0 none = none := by
  intro l
  induction l with
  | nil => intro i0 _; rfl
  | cons s rest ih =>
    intro i0 hfar
    rw [bestStopAux_cons_none, if_neg (hfar s (List.mem_cons_self s rest))]
    exact ih (i0 + 1) (fun x hx => hfar x (List.mem_cons_of_mem s hx))

/-- The scan returns a result when some stop is within the cap. -/
theorem bestStopAux_isSome_of_near (geo : Geo) (p : Point) :
    ∀ (l : List StopJson) (i0 : ℕ),
    (∃ s ∈ l, geo p s.location ≤ 400) →
    ∃ k d, bestStopAux geo p l i0 none = some (k, d) := by
  intro l
  induction l with
  | nil => intro i0 h; simp at h
  | cons s rest ih =>
    intro i0 ⟨w, hw, hwle⟩
    rw [bestStopAux_cons_none]
    by_cases hc : geo p s.location ≤ 400
    · rw [if_pos hc]
      exact bestStopAux_some_isSome geo p rest (i0 + 1) i0 (geo p s.location)
    · rw [if_neg hc]
      rcases List.mem_cons.mp hw with rfl | hw'
      · exact absurd hwle hc
      · exact ih (i0 + 1) ⟨w, hw', hwle⟩

/-- C10: `_build_employee_stop` — when some stop of the route lies within
400 m of the employee's home, the employee is appended to a *closest* such
stop (the scan keeps the strict minimum, so the first minimizer wins), the
new member's recorded walking distance is the rounded minimal distance, and
the stop's max walking distance becomes the maximum over the recorded
per-member walking distances; otherwise a fresh single-member stop with
walking distance 0 is appended at the end. -/
theorem build_employee_stop_spec (geo : Geo) (db : DBState) (empId : ℕ)
    (stops : List StopJson) (emp : EmployeeRow)
    (hemp : findEmployee db empId = some emp) :
    ((∃ s ∈ stops, geo emp.home s.location ≤ 400) →
      ∃ i d, bestStopIdx geo emp.home stops = some (i, d) ∧
        i < stops.length ∧
        d = geo emp.home ((stops.getD i dummyStopJson).location) ∧ d ≤ 400 ∧
        (∀ j, j < stops.length →
          geo emp.home ((stops.getD j dummyStopJson).location) ≤ 400 →
          d ≤ geo emp.home ((stops.getD j dummyStopJson).location)) ∧
        buildEmployeeStop geo db empId stops =
          some (stops.set i
            (addMemberToStop empId emp.name d (stops.getD i dummyStopJson)),
            emp.name, i) ∧
        (addMemberToStop empId emp.name d
            (stops.getD i dummyStopJson)).employee_walking_distances =
          (stops.getD i dummyStopJson).employee_walking_distances ++
            [(empId, pyRound d)] ∧
        (addMemberToStop empId emp.name d
            (stops.getD i dummyStopJson)).max_walking_distance =
          maxWalkOf ((stops.getD i dummyStopJson).employee_walking_distances ++
            [(empId, pyRound d)])) ∧
    ((∀ s ∈ stops, ¬ geo emp.home s.location ≤ 400) →
      buildEmployeeStop geo db empId stops =
        some (stops ++ [newEmployeeStop empId emp.name emp.home],
          emp.name, stops.length) ∧
      (newEmployeeStop empId emp.name emp.home).employee_walking_distances =
        [(empId, 0)] ∧
      (newEmployeeStop empId emp.name emp.home).max_walking_distance = 0) := by
  constructor
  · intro hex
    obtain ⟨k, d, hsome⟩ := bestStopAux_isSome_of_near geo emp.home stops 0 hex
    obtain ⟨h400, hmin, _, hlt, hd⟩ := bestStopAux_none_spec geo emp.home stops 0 k d hsome
    rw [Nat.sub_zero] at hlt hd
    refine ⟨k, d, hsome, hlt, hd, h400, hmin, ?_, rfl, rfl⟩
    simp only [buildEmployeeStop, hemp]
    rw [show bestStopIdx geo emp.home stops = some (k, d) from hsome]
  · intro hall
    have hnone : bestStopIdx geo emp.home stops = none :=
      bestStopAux_none_of_far geo emp.home stops 0 hall
    refine ⟨?_, rfl, rfl⟩
    simp only [buildEmployeeStop, hemp]
    rw [hnone]

/-- C10 (witness for `build_employee_stop_spec`): in the sample database,
employee 9 at the meridian origin is attached to the stop at 100 m (index 1),
not the first stop at 300 m, although both are within 400 m. -/
theorem build_employee_stop_spec_witness :
    ∃ i d, bestStopIdx geoLat (⟨0, 0⟩ : Point) [sampleStopFar, sampleStopNear] =
        some (i, d) ∧
      i < ([sampleStopFar, sampleStopNear] : List StopJson).length ∧
      d = geoLat ⟨0, 0⟩
        (([sampleStopFar, sampleStopNear] : List StopJson).getD i dummyStopJson).location ∧
      d ≤ 400 ∧
      (∀ j, j < ([sampleStopFar, sampleStopNear] : List StopJson).length →
        geoLat ⟨0, 0⟩
          (([sampleStopFar, sampleStopNear] : List StopJson).getD j dummyStopJson).location
          ≤ 400 →
        d ≤ geoLat ⟨0, 0⟩
          (([sampleStopFar, sampleStopNear] : List StopJson).getD j dummyStopJson).location) ∧
      buildEmployeeStop geoLat sampleDB 9 [sampleStopFar, sampleStopNear] =
        some (([sampleStopFar, sampleStopNear] : List StopJson).set i
          (addMemberToStop 9 "Ali" d
            (([sampleStopFar, sampleStopNear] : List StopJson).getD i dummyStopJson)),
          "Ali", i) ∧
      (addMemberToStop 9 "Ali" d
          (([sampleStopFar, sampleStopNear] : List StopJson).getD i
            dummyStopJson)).employee_walking_distances =
        (([sampleStopFar, sampleStopNear] : List StopJson).getD i
          dummyStopJson).employee_walking_distances ++ [(9, pyRound d)] ∧
      (addMemberToStop 9 "Ali" d
          (([sampleStopFar, sampleStopNear] : List StopJson).getD i
            dummyStopJson)).max_walking_distance =
        maxWalkOf ((([sampleStopFar, sampleStopNear] : List StopJson).getD i
          dummyStopJson).employee_walking_distances ++ [(9, pyRound d)]) :=
  (build_employee_stop_spec geoLat sampleDB 9 [sampleStopFar, sampleStopNear]
    ⟨9, "Ali", ⟨0, 0⟩⟩ rfl).1
    ⟨sampleStopNear, List.mem_cons_of_mem _ (List.mem_cons_self _ _),
      by norm_num [sampleStopNear, geoLat]⟩

end Roadmap
